import Mathlib

/-!
Shallow embedding of the sumologic-sdk-go client library
(hosted_collector.go, http_source.go, aws_cloudtrail_source.go,
aws_log_source.go, client.go) and proofs about its CRUD protocol.

JSON bodies are modelled as a `Json` tree; a response body that is absent or
is not syntactically valid JSON is `Option.none`.  Numeric JSON values are
modelled as integers (every numeric field of the API's schema is a Go `int`
or `int64`).  `encoding/json` marshalling of the request/response envelope
structs is modelled per struct, following the field tags of the source
(`omitempty` omits a zero value; a tag without `omitempty` always emits).
Unmarshalling reads each tagged field from the decoded object: a missing or
`null` field keeps the Go zero value, a field of the wrong kind is an error.
encoding/json keeps the last of duplicate object keys; no envelope or error
body produced or consumed here carries duplicate keys, and lookup takes the
first occurrence.  Decode-error message texts are collapsed to fixed strings:
the library only ever tests such an error against nil or returns it
unchanged, never reads its text.

One edge is out of the embedding's scope: the methods unmarshal into the
address of a pointer (`&r` for `r *T`), so a JSON body that is exactly
`null` sets that pointer to nil in Go and the following field access would
dereference nil; the embedding models a null body as the zero value, and no
claim exercises a null body.
-/

namespace Sumologic

/-- A decoded JSON document. -/
inductive Json where
  | null
  | bool (b : Bool)
  | num (n : Int)
  | str (s : String)
  | arr (elems : List Json)
  | obj (fields : List (String × Json))
deriving Repr, Inhabited

/-- Field lookup in a decoded JSON object (first occurrence; see header). -/
def jlookup (fields : List (String × Json)) (k : String) : Option Json :=
  match fields with
  | [] => none
  | (k', v) :: rest => if k' = k then some v else jlookup rest k

/-- Unmarshal one `int` field: missing or null keeps the zero value,
a non-number is a decode error. -/
def readInt (fields : List (String × Json)) (k : String) : Except String Int :=
  match jlookup fields k with
  | none => .ok 0
  | some .null => .ok 0
  | some (.num n) => .ok n
  | some _ => .error "json: cannot unmarshal into Go int field"

/-- Unmarshal one `string` field. -/
def readStr (fields : List (String × Json)) (k : String) : Except String String :=
  match jlookup fields k with
  | none => .ok ""
  | some .null => .ok ""
  | some (.str s) => .ok s
  | some _ => .error "json: cannot unmarshal into Go string field"

/-- Unmarshal one `bool` field. -/
def readBool (fields : List (String × Json)) (k : String) : Except String Bool :=
  match jlookup fields k with
  | none => .ok false
  | some .null => .ok false
  | some (.bool b) => .ok b
  | some _ => .error "json: cannot unmarshal into Go bool field"

/-- Unmarshal one struct-typed field with the given element decoder:
missing or null keeps the zero value `z`. -/
def readObjField (fields : List (String × Json)) (k : String)
    (dec : Json → Except String α) (z : α) : Except String α :=
  match jlookup fields k with
  | none => .ok z
  | some .null => .ok z
  | some j => dec j

/-- Unmarshal every element of a JSON array. -/
def decListAux (dec : Json → Except String α) : List Json → Except String (List α)
  | [] => .ok []
  | j :: js =>
    match dec j, decListAux dec js with
    | .ok a, .ok as => .ok (a :: as)
    | .error e, _ => .error e
    | _, .error e => .error e

/-- Unmarshal one slice-typed field: missing or null keeps the nil slice. -/
def readArrField (fields : List (String × Json)) (k : String)
    (dec : Json → Except String α) : Except String (List α) :=
  match jlookup fields k with
  | none => .ok []
  | some .null => .ok []
  | some (.arr js) => decListAux dec js
  | some _ => .error "json: cannot unmarshal into Go slice field"

/-- Marshal an `int` field tagged `omitempty`. -/
def emitInt (k : String) (n : Int) : List (String × Json) :=
  if n = 0 then [] else [(k, .num n)]

/-- Marshal a `string` field tagged `omitempty`. -/
def emitStr (k : String) (s : String) : List (String × Json) :=
  if s = "" then [] else [(k, .str s)]

/-- Marshal a `bool` field tagged `omitempty`. -/
def emitBool (k : String) (b : Bool) : List (String × Json) :=
  if b = false then [] else [(k, .bool b)]

/-- Marshal a slice field tagged `omitempty` (an empty slice is omitted). -/
def emitArr (k : String) (js : List Json) : List (String × Json) :=
  match js with
  | [] => []
  | _ => [(k, .arr js)]

/-! ## The resource structs of the source, with their field sets -/

/-- `type Filter struct` with tags filterType, name, regexp (all omitempty). -/
structure Filter where
  FilterType : String
  Name : String
  Regexp : String
deriving Repr

/-- The Go zero value of `Filter`. -/
def Filter.zero : Filter := ⟨"", "", ""⟩

/-- `type CollectorLinks struct` with tags rel, href. -/
structure CollectorLinks where
  Rel : String
  Href : String
deriving Repr

/-- `type Collector struct` of hosted_collector.go. -/
structure Collector where
  ID : Int
  Name : String
  Description : String
  Category : String
  TimeZone : String
  Links : List CollectorLinks
  CollectorType : String
  CollectorVersion : String
  LastSeenAlive : Int
  Alive : Bool
deriving Repr

/-- The Go zero value of `Collector`. -/
def Collector.zero : Collector := ⟨0, "", "", "", "", [], "", "", 0, false⟩

/-- `type CollectorRequest struct`: the envelope wrapping a collector
under the JSON key "collector". -/
structure CollectorRequest where
  Collector : Collector
deriving Repr

/-- `type HTTPSource struct` of http_source.go. -/
structure HTTPSource where
  ID : Int
  Name : String
  CollectorID : Int
  Description : String
  Category : String
  TimeZone : String
  SourceType : String
  MessagePerRequest : Bool
  MultilineProcessingEnabled : Bool
  UseAutolineMatching : Bool
  ManualPrefixRegexp : String
  Url : String
  Filters : List Filter
deriving Repr

/-- The Go zero value of `HTTPSource`. -/
def HTTPSource.zero : HTTPSource :=
  ⟨0, "", 0, "", "", "", "", false, false, false, "", "", []⟩

/-- `type HTTPSourceRequest struct`: the envelope under the key "source". -/
structure HTTPSourceRequest where
  Source : HTTPSource
deriving Repr

/-- `type AWSBucketPath struct` with tags type, bucketName, pathExpression.
The Go field `Type` is written `Type'` (`Type` is a Lean keyword). -/
structure AWSBucketPath where
  Type' : String
  BucketName : String
  PathExpression : String
deriving Repr

/-- The Go zero value of `AWSBucketPath`. -/
def AWSBucketPath.zero : AWSBucketPath := ⟨"", "", ""⟩

/-- `type AWSBucketAuthentication struct` with tags type, roleARN. -/
structure AWSBucketAuthentication where
  Type' : String
  RoleARN : String
deriving Repr

/-- The Go zero value of `AWSBucketAuthentication`. -/
def AWSBucketAuthentication.zero : AWSBucketAuthentication := ⟨"", ""⟩

/-- `type AWSBucketResource struct` with tags serviceType, path, authentication. -/
structure AWSBucketResource where
  ServiceType : String
  Path : AWSBucketPath
  Authentication : AWSBucketAuthentication
deriving Repr

/-- The Go zero value of `AWSBucketResource`. -/
def AWSBucketResource.zero : AWSBucketResource :=
  ⟨"", AWSBucketPath.zero, AWSBucketAuthentication.zero⟩

/-- `type AWSBucketThirdPartyRef struct` with tag resources (omitempty). -/
structure AWSBucketThirdPartyRef where
  Resources : List AWSBucketResource
deriving Repr

/-- The Go zero value of `AWSBucketThirdPartyRef`. -/
def AWSBucketThirdPartyRef.zero : AWSBucketThirdPartyRef := ⟨[]⟩

/-- `type AWSCloudTrailSource struct` of aws_cloudtrail_source.go. -/
structure AWSCloudTrailSource where
  ID : Int
  Name : String
  CollectorID : Int
  Description : String
  Category : String
  TimeZone : String
  SourceType : String
  ContentType : String
  ScanInterval : Int
  Paused : Bool
  CutoffRelativeTime : String
  ThirdPartyRef : AWSBucketThirdPartyRef
deriving Repr

/-- The Go zero value of `AWSCloudTrailSource`. -/
def AWSCloudTrailSource.zero : AWSCloudTrailSource :=
  ⟨0, "", 0, "", "", "", "", "", 0, false, "", AWSBucketThirdPartyRef.zero⟩

/-- `type AWSCloudTrailSourceRequest struct`: the envelope under "source". -/
structure AWSCloudTrailSourceRequest where
  Source : AWSCloudTrailSource
deriving Repr

/-- `type AWSLogSource struct` of aws_log_source.go. -/
structure AWSLogSource where
  ID : Int
  Name : String
  CollectorID : Int
  Description : String
  Category : String
  TimeZone : String
  SourceType : String
  ContentType : String
  ScanInterval : Int
  Paused : Bool
  CutoffRelativeTime : String
  MultilineProcessingEnabled : Bool
  UseAutolineMatching : Bool
  ManualPrefixRegexp : String
  Url : String
  ThirdPartyRef : AWSBucketThirdPartyRef
deriving Repr

/-- The Go zero value of `AWSLogSource`. -/
def AWSLogSource.zero : AWSLogSource :=
  ⟨0, "", 0, "", "", "", "", "", 0, false, "", false, false, "", "",
   AWSBucketThirdPartyRef.zero⟩

/-- `type AWSLogSourceRequest struct`: the envelope under "source". -/
structure AWSLogSourceRequest where
  Source : AWSLogSource
deriving Repr

/-- `type Error struct`: the API's structured 400 error body
{status, id, code, message}. -/
structure Error where
  Status : Int
  ID : String
  Code : String
  Message : String
deriving Repr

/-- The Go zero value of `Error` (the value `new(Error)` points at). -/
def Error.zero : Error := ⟨0, "", "", ""⟩

/-! ## json.Marshal per struct, following the field tags in declaration order -/

/-- The field list of a marshalled `Filter` (tags filterType, name, regexp,
all omitempty). -/
def filterFields (f : Filter) : List (String × Json) :=
  emitStr "filterType" f.FilterType ++ emitStr "name" f.Name
    ++ emitStr "regexp" f.Regexp

/-- Marshal a `Filter`. -/
def encodeFilter (f : Filter) : Json := .obj (filterFields f)

/-- Marshal a `CollectorLinks` (tags rel, href). -/
def encodeCollectorLinks (l : CollectorLinks) : Json :=
  .obj [("rel", .str l.Rel), ("href", .str l.Href)]

/-- The field list of a marshalled `Collector`: id, lastSeenAlive, alive and
the optional strings and links carry omitempty; name is always emitted. -/
def collectorFields (c : Collector) : List (String × Json) :=
  emitInt "id" c.ID ++ ("name", .str c.Name)
    :: emitStr "description" c.Description ++ emitStr "category" c.Category
    ++ emitStr "timezone" c.TimeZone
    ++ emitArr "links" (c.Links.map encodeCollectorLinks)
    ++ emitStr "collectorType" c.CollectorType
    ++ emitStr "collectorVersion" c.CollectorVersion
    ++ emitInt "lastSeenAlive" c.LastSeenAlive ++ emitBool "alive" c.Alive

/-- Marshal a `Collector` following its tags. -/
def marshalCollector (c : Collector) : Json := .obj (collectorFields c)

/-- Marshal a `CollectorRequest`: the envelope key "collector". -/
def marshalCollectorRequest (r : CollectorRequest) : Json :=
  .obj [("collector", marshalCollector r.Collector)]

/-- The field list of a marshalled `HTTPSource`: messagePerRequest,
multilineProcessingEnabled and useAutolineMatching are always emitted
(the last one's tag is "useAutolineMatching," with an empty option). -/
def httpSourceFields (s : HTTPSource) : List (String × Json) :=
  emitInt "id" s.ID ++ ("name", .str s.Name)
    :: emitInt "CollectorId" s.CollectorID
    ++ emitStr "description" s.Description ++ emitStr "category" s.Category
    ++ emitStr "timezone" s.TimeZone ++ emitStr "sourceType" s.SourceType
    ++ ("messagePerRequest", .bool s.MessagePerRequest)
    :: ("multilineProcessingEnabled", .bool s.MultilineProcessingEnabled)
    :: ("useAutolineMatching", .bool s.UseAutolineMatching)
    :: emitStr "manualPrefixRegexp" s.ManualPrefixRegexp
    ++ emitStr "url" s.Url ++ emitArr "filters" (s.Filters.map encodeFilter)

/-- Marshal an `HTTPSource` following its tags. -/
def marshalHTTPSource (s : HTTPSource) : Json := .obj (httpSourceFields s)

/-- Marshal an `HTTPSourceRequest`: the envelope key "source". -/
def marshalHTTPSourceRequest (r : HTTPSourceRequest) : Json :=
  .obj [("source", marshalHTTPSource r.Source)]

/-- Marshal an `AWSBucketPath` (tags type, bucketName, pathExpression). -/
def encodeAWSBucketPath (p : AWSBucketPath) : Json :=
  .obj [("type", .str p.Type'), ("bucketName", .str p.BucketName),
    ("pathExpression", .str p.PathExpression)]

/-- Marshal an `AWSBucketAuthentication` (tags type, roleARN). -/
def encodeAWSBucketAuthentication (a : AWSBucketAuthentication) : Json :=
  .obj [("type", .str a.Type'), ("roleARN", .str a.RoleARN)]

/-- Marshal an `AWSBucketResource` (tags serviceType, path, authentication). -/
def encodeAWSBucketResource (r : AWSBucketResource) : Json :=
  .obj [("serviceType", .str r.ServiceType),
    ("path", encodeAWSBucketPath r.Path),
    ("authentication", encodeAWSBucketAuthentication r.Authentication)]

/-- The field list of a marshalled `AWSBucketThirdPartyRef` (tag resources,
omitempty). -/
def thirdPartyRefFields (t : AWSBucketThirdPartyRef) : List (String × Json) :=
  emitArr "resources" (t.Resources.map encodeAWSBucketResource)

/-- Marshal an `AWSBucketThirdPartyRef`. -/
def encodeAWSBucketThirdPartyRef (t : AWSBucketThirdPartyRef) : Json :=
  .obj (thirdPartyRefFields t)

/-- Marshal an `AWSCloudTrailSource` following its tags: paused and
cutoffRelativeTime are always emitted; the tag "thirdPartyRef,omitempty"
carries omitempty, but in encoding/json omitempty never omits a struct
value, so the field is always emitted. -/
def awsCloudTrailSourceFields (s : AWSCloudTrailSource) : List (String × Json) :=
  emitInt "id" s.ID ++ ("name", .str s.Name)
    :: emitInt "CollectorId" s.CollectorID
    ++ emitStr "description" s.Description ++ emitStr "category" s.Category
    ++ emitStr "timezone" s.TimeZone ++ emitStr "sourceType" s.SourceType
    ++ emitStr "contentType" s.ContentType
    ++ emitInt "scanInterval" s.ScanInterval
    ++ ("paused", .bool s.Paused)
    :: ("cutoffRelativeTime", .str s.CutoffRelativeTime)
    :: [("thirdPartyRef", encodeAWSBucketThirdPartyRef s.ThirdPartyRef)]

/-- Marshal an `AWSCloudTrailSource` following its tags. -/
def marshalAWSCloudTrailSource (s : AWSCloudTrailSource) : Json :=
  .obj (awsCloudTrailSourceFields s)

/-- Marshal an `AWSCloudTrailSourceRequest`: the envelope key "source". -/
def marshalAWSCloudTrailSourceRequest (r : AWSCloudTrailSourceRequest) : Json :=
  .obj [("source", marshalAWSCloudTrailSource r.Source)]

/-- Marshal an `AWSLogSource` following its tags: paused is always emitted;
every other optional field carries omitempty; thirdPartyRef is a struct
value, so omitempty never omits it. -/
def awsLogSourceFields (s : AWSLogSource) : List (String × Json) :=
  emitInt "id" s.ID ++ ("name", .str s.Name)
    :: emitInt "CollectorId" s.CollectorID
    ++ emitStr "description" s.Description ++ emitStr "category" s.Category
    ++ emitStr "timezone" s.TimeZone ++ emitStr "sourceType" s.SourceType
    ++ emitStr "contentType" s.ContentType
    ++ emitInt "scanInterval" s.ScanInterval
    ++ ("paused", .bool s.Paused)
    :: emitStr "cutoffRelativeTime" s.CutoffRelativeTime
    ++ emitBool "multilineProcessingEnabled" s.MultilineProcessingEnabled
    ++ emitBool "useAutolineMatching" s.UseAutolineMatching
    ++ emitStr "manualPrefixRegexp" s.ManualPrefixRegexp
    ++ emitStr "url" s.Url
    ++ [("thirdPartyRef", encodeAWSBucketThirdPartyRef s.ThirdPartyRef)]

/-- Marshal an `AWSLogSource` following its tags. -/
def marshalAWSLogSource (s : AWSLogSource) : Json := .obj (awsLogSourceFields s)

/-- Marshal an `AWSLogSourceRequest`: the envelope key "source". -/
def marshalAWSLogSourceRequest (r : AWSLogSourceRequest) : Json :=
  .obj [("source", marshalAWSLogSource r.Source)]

/-! ## json.Unmarshal per struct -/

/-- Unmarshal a `Filter`. -/
def decodeFilter : Json → Except String Filter
  | .null => .ok Filter.zero
  | .obj fs =>
    match readStr fs "filterType", readStr fs "name", readStr fs "regexp" with
    | .ok a, .ok b, .ok c => .ok ⟨a, b, c⟩
    | _, _, _ => .error "json: cannot unmarshal Filter"
  | _ => .error "json: cannot unmarshal Filter"

/-- Unmarshal a `CollectorLinks`. -/
def decodeCollectorLinks : Json → Except String CollectorLinks
  | .null => .ok ⟨"", ""⟩
  | .obj fs =>
    match readStr fs "rel", readStr fs "href" with
    | .ok a, .ok b => .ok ⟨a, b⟩
    | _, _ => .error "json: cannot unmarshal CollectorLinks"
  | _ => .error "json: cannot unmarshal CollectorLinks"

/-- Unmarshal a `Collector`. -/
def decodeCollector : Json → Except String Collector
  | .null => .ok Collector.zero
  | .obj fs =>
    match readInt fs "id", readStr fs "name", readStr fs "description",
        readStr fs "category", readStr fs "timezone",
        readArrField fs "links" decodeCollectorLinks,
        readStr fs "collectorType", readStr fs "collectorVersion",
        readInt fs "lastSeenAlive", readBool fs "alive" with
    | .ok a, .ok b, .ok c, .ok d, .ok e, .ok f, .ok g, .ok h, .ok i, .ok j =>
      .ok ⟨a, b, c, d, e, f, g, h, i, j⟩
    | _, _, _, _, _, _, _, _, _, _ => .error "json: cannot unmarshal Collector"
  | _ => .error "json: cannot unmarshal Collector"

/-- Unmarshal a `CollectorRequest` from a response body.  An absent body or
one that is not valid JSON is a syntax error; a JSON null leaves the
destination untouched (modelled as the zero value). -/
def unmarshalCollectorRequest : Option Json → Except String CollectorRequest
  | none => .error "unexpected end of JSON input"
  | some .null => .ok ⟨Collector.zero⟩
  | some (.obj fs) =>
    match readObjField fs "collector" decodeCollector Collector.zero with
    | .ok c => .ok ⟨c⟩
    | .error e => .error e
  | some _ => .error "json: cannot unmarshal CollectorRequest"

/-- Unmarshal an `HTTPSource`. -/
def decodeHTTPSource : Json → Except String HTTPSource
  | .null => .ok HTTPSource.zero
  | .obj fs =>
    match readInt fs "id", readStr fs "name", readInt fs "CollectorId",
        readStr fs "description", readStr fs "category", readStr fs "timezone",
        readStr fs "sourceType", readBool fs "messagePerRequest",
        readBool fs "multilineProcessingEnabled",
        readBool fs "useAutolineMatching", readStr fs "manualPrefixRegexp",
        readStr fs "url", readArrField fs "filters" decodeFilter with
    | .ok a, .ok b, .ok c, .ok d, .ok e, .ok f, .ok g, .ok h, .ok i, .ok j,
        .ok k, .ok l, .ok m =>
      .ok ⟨a, b, c, d, e, f, g, h, i, j, k, l, m⟩
    | _, _, _, _, _, _, _, _, _, _, _, _, _ =>
      .error "json: cannot unmarshal HTTPSource"
  | _ => .error "json: cannot unmarshal HTTPSource"

/-- Unmarshal an `HTTPSourceRequest` from a response body. -/
def unmarshalHTTPSourceRequest : Option Json → Except String HTTPSourceRequest
  | none => .error "unexpected end of JSON input"
  | some .null => .ok ⟨HTTPSource.zero⟩
  | some (.obj fs) =>
    match readObjField fs "source" decodeHTTPSource HTTPSource.zero with
    | .ok s => .ok ⟨s⟩
    | .error e => .error e
  | some _ => .error "json: cannot unmarshal HTTPSourceRequest"

/-- Unmarshal an `AWSBucketPath`. -/
def decodeAWSBucketPath : Json → Except String AWSBucketPath
  | .null => .ok AWSBucketPath.zero
  | .obj fs =>
    match readStr fs "type", readStr fs "bucketName",
        readStr fs "pathExpression" with
    | .ok a, .ok b, .ok c => .ok ⟨a, b, c⟩
    | _, _, _ => .error "json: cannot unmarshal AWSBucketPath"
  | _ => .error "json: cannot unmarshal AWSBucketPath"

/-- Unmarshal an `AWSBucketAuthentication`. -/
def decodeAWSBucketAuthentication : Json → Except String AWSBucketAuthentication
  | .null => .ok AWSBucketAuthentication.zero
  | .obj fs =>
    match readStr fs "type", readStr fs "roleARN" with
    | .ok a, .ok b => .ok ⟨a, b⟩
    | _, _ => .error "json: cannot unmarshal AWSBucketAuthentication"
  | _ => .error "json: cannot unmarshal AWSBucketAuthentication"

/-- Unmarshal an `AWSBucketResource`. -/
def decodeAWSBucketResource : Json → Except String AWSBucketResource
  | .null => .ok AWSBucketResource.zero
  | .obj fs =>
    match readStr fs "serviceType",
        readObjField fs "path" decodeAWSBucketPath AWSBucketPath.zero,
        readObjField fs "authentication" decodeAWSBucketAuthentication
          AWSBucketAuthentication.zero with
    | .ok a, .ok b, .ok c => .ok ⟨a, b, c⟩
    | _, _, _ => .error "json: cannot unmarshal AWSBucketResource"
  | _ => .error "json: cannot unmarshal AWSBucketResource"

/-- Unmarshal an `AWSBucketThirdPartyRef`. -/
def decodeAWSBucketThirdPartyRef : Json → Except String AWSBucketThirdPartyRef
  | .null => .ok AWSBucketThirdPartyRef.zero
  | .obj fs =>
    match readArrField fs "resources" decodeAWSBucketResource with
    | .ok rs => .ok ⟨rs⟩
    | .error e => .error e
  | _ => .error "json: cannot unmarshal AWSBucketThirdPartyRef"

/-- Unmarshal an `AWSCloudTrailSource`. -/
def decodeAWSCloudTrailSource : Json → Except String AWSCloudTrailSource
  | .null => .ok AWSCloudTrailSource.zero
  | .obj fs =>
    match readInt fs "id", readStr fs "name", readInt fs "CollectorId",
        readStr fs "description", readStr fs "category", readStr fs "timezone",
        readStr fs "sourceType", readStr fs "contentType",
        readInt fs "scanInterval", readBool fs "paused",
        readStr fs "cutoffRelativeTime",
        readObjField fs "thirdPartyRef" decodeAWSBucketThirdPartyRef
          AWSBucketThirdPartyRef.zero with
    | .ok a, .ok b, .ok c, .ok d, .ok e, .ok f, .ok g, .ok h, .ok i, .ok j,
        .ok k, .ok l =>
      .ok ⟨a, b, c, d, e, f, g, h, i, j, k, l⟩
    | _, _, _, _, _, _, _, _, _, _, _, _ =>
      .error "json: cannot unmarshal AWSCloudTrailSource"
  | _ => .error "json: cannot unmarshal AWSCloudTrailSource"

/-- Unmarshal an `AWSCloudTrailSourceRequest` from a response body. -/
def unmarshalAWSCloudTrailSourceRequest :
    Option Json → Except String AWSCloudTrailSourceRequest
  | none => .error "unexpected end of JSON input"
  | some .null => .ok ⟨AWSCloudTrailSource.zero⟩
  | some (.obj fs) =>
    match readObjField fs "source" decodeAWSCloudTrailSource
        AWSCloudTrailSource.zero with
    | .ok s => .ok ⟨s⟩
    | .error e => .error e
  | some _ => .error "json: cannot unmarshal AWSCloudTrailSourceRequest"

/-- Unmarshal an `AWSLogSource`. -/
def decodeAWSLogSource : Json → Except String AWSLogSource
  | .null => .ok AWSLogSource.zero
  | .obj fs =>
    match readInt fs "id", readStr fs "name", readInt fs "CollectorId",
        readStr fs "description", readStr fs "category", readStr fs "timezone",
        readStr fs "sourceType", readStr fs "contentType",
        readInt fs "scanInterval", readBool fs "paused",
        readStr fs "cutoffRelativeTime",
        readBool fs "multilineProcessingEnabled",
        readBool fs "useAutolineMatching", readStr fs "manualPrefixRegexp",
        readStr fs "url",
        readObjField fs "thirdPartyRef" decodeAWSBucketThirdPartyRef
          AWSBucketThirdPartyRef.zero with
    | .ok a, .ok b, .ok c, .ok d, .ok e, .ok f, .ok g, .ok h, .ok i, .ok j,
        .ok k, .ok l, .ok m, .ok n, .ok o, .ok p =>
      .ok ⟨a, b, c, d, e, f, g, h, i, j, k, l, m, n, o, p⟩
    | _, _, _, _, _, _, _, _, _, _, _, _, _, _, _, _ =>
      .error "json: cannot unmarshal AWSLogSource"
  | _ => .error "json: cannot unmarshal AWSLogSource"

/-- Unmarshal an `AWSLogSourceRequest` from a response body. -/
def unmarshalAWSLogSourceRequest : Option Json → Except String AWSLogSourceRequest
  | none => .error "unexpected end of JSON input"
  | some .null => .ok ⟨AWSLogSource.zero⟩
  | some (.obj fs) =>
    match readObjField fs "source" decodeAWSLogSource AWSLogSource.zero with
    | .ok s => .ok ⟨s⟩
    | .error e => .error e
  | some _ => .error "json: cannot unmarshal AWSLogSourceRequest"

/-- The value of an `int` field after a (possibly failed) unmarshal:
encoding/json fills the fields it can even when it reports an error. -/
def readIntLoose (fields : List (String × Json)) (k : String) : Int :=
  match jlookup fields k with
  | some (.num n) => n
  | _ => 0

/-- The value of a `string` field after a (possibly failed) unmarshal. -/
def readStrLoose (fields : List (String × Json)) (k : String) : String :=
  match jlookup fields k with
  | some (.str s) => s
  | _ => ""

/-- Whether an `int` field is present with the wrong JSON kind. -/
def fieldIntBad (fields : List (String × Json)) (k : String) : Bool :=
  match jlookup fields k with
  | none => false
  | some .null => false
  | some (.num _) => false
  | some _ => true

/-- Whether a `string` field is present with the wrong JSON kind. -/
def fieldStrBad (fields : List (String × Json)) (k : String) : Bool :=
  match jlookup fields k with
  | none => false
  | some .null => false
  | some (.str _) => false
  | some _ => true

/-- `json.Unmarshal(responseBody, &e)` for `e *Error`: the value of `e`
after the call and the error the call reports, if any.  encoding/json keeps
decoding an object after a field of the wrong kind, so well-typed fields are
filled even when an error is reported; the create paths check the error, the
update paths ignore it and read the (possibly partially filled) value. -/
def unmarshalErrorGo (body : Option Json) : Error × Option String :=
  match body with
  | none => (Error.zero, some "unexpected end of JSON input")
  | some .null => (Error.zero, none)
  | some (.obj fs) =>
    (⟨readIntLoose fs "status", readStrLoose fs "id", readStrLoose fs "code",
      readStrLoose fs "message"⟩,
     if fieldIntBad fs "status" || fieldStrBad fs "id" || fieldStrBad fs "code"
        || fieldStrBad fs "message"
     then some "json: cannot unmarshal Error" else none)
  | some _ => (Error.zero, some "json: cannot unmarshal Error")

/-! ## The regexp of aws_log_source.go's create path

`regexp.MatchString("The S3 bucket 'bucketName=.*' is not readable.", msg)`:
the pattern is unanchored, each `.` matches any character except newline, and
`.*` is a possibly empty newline-free gap.  A match is a position where the
literal prefix before the gap starts, followed by such a gap, the literal
after the gap, and one further non-newline character (the pattern's final
`.` is the any-character metacharacter, not a literal full stop). -/

/-- Whether the pattern list is a prefix of the character list. -/
def listStartsWith : List Char → List Char → Bool
  | [], _ => true
  | _ :: _, [] => false
  | p :: ps, c :: cs => p = c && listStartsWith ps cs

/-- The literal before the `.*` gap. -/
def s3PatOpen : List Char := "The S3 bucket 'bucketName=".toList

/-- The literal after the `.*` gap (the final `.` of the pattern is the
any-character metacharacter and is matched separately). -/
def s3PatClose : List Char := "' is not readable".toList

/-- After the opening literal: either the closing literal starts here and is
followed by one non-newline character, or the current character extends the
newline-free gap. -/
def s3AfterGap : List Char → Bool
  | [] => false
  | c :: cs =>
    (listStartsWith s3PatClose (c :: cs)
      && (match (c :: cs).drop s3PatClose.length with
          | d :: _ => d != '\n'
          | [] => false))
    || (c != '\n' && s3AfterGap cs)

/-- Whether the pattern matches starting at some position of the list. -/
def s3MatchList : List Char → Bool
  | [] => false
  | c :: cs =>
    (listStartsWith s3PatOpen (c :: cs) && s3AfterGap ((c :: cs).drop s3PatOpen.length))
    || s3MatchList cs

/-- Models `regexp.MatchString("The S3 bucket 'bucketName=.*' is not readable.", s)`. -/
def matchS3BucketPattern (s : String) : Bool := s3MatchList s.toList

/-! ## The client and the HTTP exchange -/

/-- `type Client struct` of client.go: the authentication token and the
endpoint base URL (the parsed URL is modelled by its string). -/
structure Client where
  AuthToken : String
  EndpointURL : String
deriving Repr

/-- The one HTTP request an operation issues: method, resolved URL, headers
in the order the source adds them, and the marshalled body, when one is sent. -/
structure HttpRequest where
  method : String
  url : String
  headers : List (String × String)
  body : Option Json
deriving Repr

/-- The server's response as the operation sees it: the status code, the
value of the ETag response header ("" when absent), and the decoded body
(`none` when absent or not valid JSON). -/
structure HttpResponse where
  status : Nat
  etag : String
  body : Option Json
deriving Repr

/-- `EndpointURL.ResolveReference(relativeURL)`, abstracted to appending the
relative path to the base URL's string; no claim depends on RFC 3986
resolution details. -/
def resolveReference (base rel : String) : String := base ++ rel

/-- A Go error value as the operations produce them.  The package-level
sentinels (`errors.New` values compared by identity) are constructors;
`jsonError` is an error returned by `json.Unmarshal` and passed through;
`errorf` is a `fmt.Errorf` value carrying its formatted message. -/
inductive GoError where
  | clientAuthenticationError
  | collectorNotFound
  | sourceNotFound
  | awsAuthenticationError
  | jsonError (msg : String)
  | errorf (msg : String)
deriving Repr, DecidableEq

/-- What one operation call produces: the receiver after the call (the
methods take `*Client`; none of them writes a field, which `client` lets the
frame theorem state), the request issued, and the returned result. -/
structure Outcome (α : Type) where
  client : Client
  request : HttpRequest
  result : α
deriving Repr

/-! ## Collector CRUD (hosted_collector.go)

`fmt.Errorf` mangling, reproduced faithfully:
the default branches format the int status code with the `%s` verb, which
fmt renders as `%!s(int=N)`; the 400 branches of create and update have a
bare `%` before a backtick, which fmt reads as the invalid verb `` ` `` and
renders as ``%!`(string=name)``, swallowing the closing backtick. -/

/-- The message of the collector operations' default branch:
`fmt.Errorf("Unknown Response with Sumo Logic: `+"`%s`"+`", resp.StatusCode)`. -/
def collectorUnknownMsg (code : Nat) : String :=
  "Unknown Response with Sumo Logic: `%!s(int=" ++ toString code ++ ")`"

/-- The message of the collector create/update 400 branch:
`fmt.Errorf("Bad Request. Please check if a collector with this name `+"`%`"+` already exists", collector.Name)`. -/
def collectorBadRequestMsg (name : String) : String :=
  "Bad Request. Please check if a collector with this name `%!`(string="
    ++ name ++ ") already exists"

/-- The message of the source operations' default branch (`%d` verb). -/
def sourceUnknownMsg (code : Nat) : String :=
  "Unknown Response with Sumo Logic: `" ++ toString code ++ "`"

/-- `GetHostedCollector` against the given response. -/
def GetHostedCollector (s : Client) (id : Int) (resp : HttpResponse) :
    Outcome (Except GoError (Collector × String)) :=
  let url := resolveReference s.EndpointURL ("collectors/" ++ toString id)
  let req : HttpRequest :=
    { method := "GET", url := url,
      headers := [("Authorization", "Basic " ++ s.AuthToken)], body := none }
  { client := s, request := req,
    result :=
      if resp.status = 200 then
        match unmarshalCollectorRequest resp.body with
        | .error e => .error (.jsonError e)
        | .ok cr => .ok (cr.Collector, resp.etag)
      else if resp.status = 401 then .error .clientAuthenticationError
      else if resp.status = 404 then .error .collectorNotFound
      else .error (.errorf (collectorUnknownMsg resp.status)) }

/-- `CreateHostedCollector` against the given response. -/
def CreateHostedCollector (s : Client) (collector : Collector)
    (resp : HttpResponse) : Outcome (Except GoError Collector) :=
  let body := marshalCollectorRequest ⟨collector⟩
  let url := resolveReference s.EndpointURL "collectors"
  let req : HttpRequest :=
    { method := "POST", url := url,
      headers := [("Content-Type", "application/json"),
        ("Authorization", "Basic " ++ s.AuthToken)],
      body := some body }
  { client := s, request := req,
    result :=
      if resp.status = 201 then
        match unmarshalCollectorRequest resp.body with
        | .error e => .error (.jsonError e)
        | .ok cr => .ok cr.Collector
      else if resp.status = 401 then .error .clientAuthenticationError
      else if resp.status = 400 then
        .error (.errorf (collectorBadRequestMsg collector.Name))
      else .error (.errorf (collectorUnknownMsg resp.status)) }

/-- `UpdateHostedCollector` against the given response. -/
def UpdateHostedCollector (s : Client) (collector : Collector) (etag : String)
    (resp : HttpResponse) : Outcome (Except GoError Collector) :=
  let body := marshalCollectorRequest ⟨collector⟩
  let url := resolveReference s.EndpointURL ("collectors/" ++ toString collector.ID)
  let req : HttpRequest :=
    { method := "PUT", url := url,
      headers := [("Content-Type", "application/json"),
        ("Authorization", "Basic " ++ s.AuthToken), ("If-Match", etag)],
      body := some body }
  { client := s, request := req,
    result :=
      if resp.status = 200 then
        match unmarshalCollectorRequest resp.body with
        | .error e => .error (.jsonError e)
        | .ok cr => .ok cr.Collector
      else if resp.status = 401 then .error .clientAuthenticationError
      else if resp.status = 400 then
        .error (.errorf (collectorBadRequestMsg collector.Name))
      else .error (.errorf (collectorUnknownMsg resp.status)) }

/-- `DeleteHostedCollector` against the given response (`none` is Go's nil
error). -/
def DeleteHostedCollector (s : Client) (id : Int) (resp : HttpResponse) :
    Outcome (Option GoError) :=
  let url := resolveReference s.EndpointURL ("collectors/" ++ toString id)
  let req : HttpRequest :=
    { method := "DELETE", url := url,
      headers := [("Authorization", "Basic " ++ s.AuthToken)], body := none }
  { client := s, request := req,
    result :=
      if resp.status = 200 then none
      else if resp.status = 404 then some .collectorNotFound
      else if resp.status = 401 then some .clientAuthenticationError
      else some (.errorf (collectorUnknownMsg resp.status)) }

/-! ## HTTPSource CRUD (http_source.go) -/

/-- `GetHTTPSource` against the given response. -/
def GetHTTPSource (s : Client) (collectorID id : Int) (resp : HttpResponse) :
    Outcome (Except GoError (HTTPSource × String)) :=
  let url := resolveReference s.EndpointURL
    ("collectors/" ++ toString collectorID ++ "/sources/" ++ toString id)
  let req : HttpRequest :=
    { method := "GET", url := url,
      headers := [("Authorization", "Basic " ++ s.AuthToken)], body := none }
  { client := s, request := req,
    result :=
      if resp.status = 200 then
        match unmarshalHTTPSourceRequest resp.body with
        | .error e => .error (.jsonError e)
        | .ok r => .ok (r.Source, resp.etag)
      else if resp.status = 401 then .error .clientAuthenticationError
      else if resp.status = 404 then .error .sourceNotFound
      else .error (.errorf (sourceUnknownMsg resp.status)) }

/-- `CreateHTTPSource` against the given response.  In the 400 branch the
source declares `var e = new(Error)` but never unmarshals the response body
into it, so `e.Message` is the empty string of the zero value. -/
def CreateHTTPSource (s : Client) (collectorID : Int) (source : HTTPSource)
    (resp : HttpResponse) : Outcome (Except GoError HTTPSource) :=
  let body := marshalHTTPSourceRequest ⟨source⟩
  let url := resolveReference s.EndpointURL
    ("collectors/" ++ toString collectorID ++ "/sources")
  let req : HttpRequest :=
    { method := "POST", url := url,
      headers := [("Content-Type", "application/json"),
        ("Authorization", "Basic " ++ s.AuthToken)],
      body := some body }
  { client := s, request := req,
    result :=
      if resp.status = 201 then
        match unmarshalHTTPSourceRequest resp.body with
        | .error e => .error (.jsonError e)
        | .ok r => .ok r.Source
      else if resp.status = 401 then .error .clientAuthenticationError
      else if resp.status = 400 then
        let e := Error.zero
        .error (.errorf ("Bad Request. " ++ e.Message))
      else .error (.errorf (sourceUnknownMsg resp.status)) }

/-- `UpdateHTTPSource` against the given response. -/
def UpdateHTTPSource (s : Client) (collectorID : Int) (source : HTTPSource)
    (etag : String) (resp : HttpResponse) : Outcome (Except GoError HTTPSource) :=
  let body := marshalHTTPSourceRequest ⟨source⟩
  let url := resolveReference s.EndpointURL
    ("collectors/" ++ toString collectorID ++ "/sources/" ++ toString source.ID)
  let req : HttpRequest :=
    { method := "PUT", url := url,
      headers := [("Content-Type", "application/json"),
        ("Authorization", "Basic " ++ s.AuthToken), ("If-Match", etag)],
      body := some body }
  { client := s, request := req,
    result :=
      if resp.status = 200 then
        match unmarshalHTTPSourceRequest resp.body with
        | .error e => .error (.jsonError e)
        | .ok r => .ok r.Source
      else if resp.status = 401 then .error .clientAuthenticationError
      else if resp.status = 400 then
        .error (.errorf ("Bad Request. Please check if a source with this name `"
          ++ source.Name ++ "` already exists"))
      else .error (.errorf (sourceUnknownMsg resp.status)) }

/-- `DeleteHTTPSource` against the given response. -/
def DeleteHTTPSource (s : Client) (collectorID id : Int) (resp : HttpResponse) :
    Outcome (Option GoError) :=
  let url := resolveReference s.EndpointURL
    ("collectors/" ++ toString collectorID ++ "/sources/" ++ toString id)
  let req : HttpRequest :=
    { method := "DELETE", url := url,
      headers := [("Authorization", "Basic " ++ s.AuthToken)], body := none }
  { client := s, request := req,
    result :=
      if resp.status = 200 then none
      else if resp.status = 404 then some .sourceNotFound
      else if resp.status = 401 then some .clientAuthenticationError
      else some (.errorf (sourceUnknownMsg resp.status)) }

/-! ## AWSCloudTrailSource CRUD (aws_cloudtrail_source.go) -/

/-- `GetAWSCloudTrailSource` against the given response. -/
def GetAWSCloudTrailSource (s : Client) (collectorID id : Int)
    (resp : HttpResponse) : Outcome (Except GoError (AWSCloudTrailSource × String)) :=
  let url := resolveReference s.EndpointURL
    ("collectors/" ++ toString collectorID ++ "/sources/" ++ toString id)
  let req : HttpRequest :=
    { method := "GET", url := url,
      headers := [("Authorization", "Basic " ++ s.AuthToken)], body := none }
  { client := s, request := req,
    result :=
      if resp.status = 200 then
        match unmarshalAWSCloudTrailSourceRequest resp.body with
        | .error e => .error (.jsonError e)
        | .ok r => .ok (r.Source, resp.etag)
      else if resp.status = 401 then .error .clientAuthenticationError
      else if resp.status = 404 then .error .sourceNotFound
      else .error (.errorf (sourceUnknownMsg resp.status)) }

/-- `CreateAWSCloudTrailSource` against the given response.  The 400 branch
unmarshals the error body; on unmarshal failure it returns the
duplicate-name hint, on success it tests `e.Message` against the two exact
AWS-authentication messages (no S3-bucket regexp test here, unlike
`CreateAWSLogSource`). -/
def CreateAWSCloudTrailSource (s : Client) (collectorID : Int)
    (source : AWSCloudTrailSource) (resp : HttpResponse) :
    Outcome (Except GoError AWSCloudTrailSource) :=
  let body := marshalAWSCloudTrailSourceRequest ⟨source⟩
  let url := resolveReference s.EndpointURL
    ("collectors/" ++ toString collectorID ++ "/sources")
  let req : HttpRequest :=
    { method := "POST", url := url,
      headers := [("Content-Type", "application/json"),
        ("Authorization", "Basic " ++ s.AuthToken)],
      body := some body }
  { client := s, request := req,
    result :=
      if resp.status = 201 then
        match unmarshalAWSCloudTrailSourceRequest resp.body with
        | .error e => .error (.jsonError e)
        | .ok r => .ok r.Source
      else if resp.status = 401 then .error .clientAuthenticationError
      else if resp.status = 400 then
        match unmarshalErrorGo resp.body with
        | (_, some _) =>
          .error (.errorf ("Bad Request. Please check if a source with this name `"
            ++ source.Name ++ "` already exists"))
        | (e, none) =>
          if e.Message = "Cannot authenticate with AWS."
              ∨ e.Message = "Invalid IAM role: 'errorCode=AccessDenied'." then
            .error .awsAuthenticationError
          else .error (.errorf ("Bad Request. " ++ e.Message))
      else .error (.errorf (sourceUnknownMsg resp.status)) }

/-- `UpdateAWSCloudTrailSource` against the given response.  The 400 branch
unmarshals the error body but does not check the unmarshal error: it reads
`e.Message` from the (possibly partially filled) value. -/
def UpdateAWSCloudTrailSource (s : Client) (collectorID : Int)
    (source : AWSCloudTrailSource) (etag : String) (resp : HttpResponse) :
    Outcome (Except GoError AWSCloudTrailSource) :=
  let body := marshalAWSCloudTrailSourceRequest ⟨source⟩
  let url := resolveReference s.EndpointURL
    ("collectors/" ++ toString collectorID ++ "/sources/" ++ toString source.ID)
  let req : HttpRequest :=
    { method := "PUT", url := url,
      headers := [("Content-Type", "application/json"),
        ("Authorization", "Basic " ++ s.AuthToken), ("If-Match", etag)],
      body := some body }
  { client := s, request := req,
    result :=
      if resp.status = 200 then
        match unmarshalAWSCloudTrailSourceRequest resp.body with
        | .error e => .error (.jsonError e)
        | .ok r => .ok r.Source
      else if resp.status = 401 then .error .clientAuthenticationError
      else if resp.status = 400 then
        let e := (unmarshalErrorGo resp.body).1
        if e.Message = "Cannot authenticate with AWS."
            ∨ e.Message = "Invalid IAM role: 'errorCode=AccessDenied'." then
          .error .awsAuthenticationError
        else
          .error (.errorf ("Bad Request. Please check if a source with this name `"
            ++ source.Name ++ "` already exists"))
      else .error (.errorf (sourceUnknownMsg resp.status)) }

/-- `DeleteAWSCloudTrailSource` against the given response. -/
def DeleteAWSCloudTrailSource (s : Client) (collectorID id : Int)
    (resp : HttpResponse) : Outcome (Option GoError) :=
  let url := resolveReference s.EndpointURL
    ("collectors/" ++ toString collectorID ++ "/sources/" ++ toString id)
  let req : HttpRequest :=
    { method := "DELETE", url := url,
      headers := [("Authorization", "Basic " ++ s.AuthToken)], body := none }
  { client := s, request := req,
    result :=
      if resp.status = 200 then none
      else if resp.status = 404 then some .sourceNotFound
      else if resp.status = 401 then some .clientAuthenticationError
      else some (.errorf (sourceUnknownMsg resp.status)) }

/-! ## AWSLogSource CRUD (aws_log_source.go) -/

/-- `GetAWSLogSource` against the given response. -/
def GetAWSLogSource (s : Client) (collectorID id : Int) (resp : HttpResponse) :
    Outcome (Except GoError (AWSLogSource × String)) :=
  let url := resolveReference s.EndpointURL
    ("collectors/" ++ toString collectorID ++ "/sources/" ++ toString id)
  let req : HttpRequest :=
    { method := "GET", url := url,
      headers := [("Authorization", "Basic " ++ s.AuthToken)], body := none }
  { client := s, request := req,
    result :=
      if resp.status = 200 then
        match unmarshalAWSLogSourceRequest resp.body with
        | .error e => .error (.jsonError e)
        | .ok r => .ok (r.Source, resp.etag)
      else if resp.status = 401 then .error .clientAuthenticationError
      else if resp.status = 404 then .error .sourceNotFound
      else .error (.errorf (sourceUnknownMsg resp.status)) }

/-- `CreateAWSLogSource` against the given response.  The 400 branch
unmarshals the error body; on unmarshal failure it returns the
duplicate-name hint, on success it tests `e.Message` against the two exact
AWS-authentication messages and then against the S3-bucket regexp. -/
def CreateAWSLogSource (s : Client) (collectorID : Int) (source : AWSLogSource)
    (resp : HttpResponse) : Outcome (Except GoError AWSLogSource) :=
  let body := marshalAWSLogSourceRequest ⟨source⟩
  let url := resolveReference s.EndpointURL
    ("collectors/" ++ toString collectorID ++ "/sources")
  let req : HttpRequest :=
    { method := "POST", url := url,
      headers := [("Content-Type", "application/json"),
        ("Authorization", "Basic " ++ s.AuthToken)],
      body := some body }
  { client := s, request := req,
    result :=
      if resp.status = 201 then
        match unmarshalAWSLogSourceRequest resp.body with
        | .error e => .error (.jsonError e)
        | .ok r => .ok r.Source
      else if resp.status = 401 then .error .clientAuthenticationError
      else if resp.status = 400 then
        match unmarshalErrorGo resp.body with
        | (_, some _) =>
          .error (.errorf ("Bad Request. Please check if a source with this name `"
            ++ source.Name ++ "` already exists"))
        | (e, none) =>
          if e.Message = "Cannot authenticate with AWS."
              ∨ e.Message = "Invalid IAM role: 'errorCode=AccessDenied'." then
            .error .awsAuthenticationError
          else if matchS3BucketPattern e.Message then
            .error .awsAuthenticationError
          else .error (.errorf ("Bad Request. " ++ e.Message))
      else .error (.errorf (sourceUnknownMsg resp.status)) }

/-- `UpdateAWSLogSource` against the given response.  Like
`UpdateAWSCloudTrailSource`, the 400 branch ignores the unmarshal error and
makes no S3-bucket regexp test. -/
def UpdateAWSLogSource (s : Client) (collectorID : Int) (source : AWSLogSource)
    (etag : String) (resp : HttpResponse) : Outcome (Except GoError AWSLogSource) :=
  let body := marshalAWSLogSourceRequest ⟨source⟩
  let url := resolveReference s.EndpointURL
    ("collectors/" ++ toString collectorID ++ "/sources/" ++ toString source.ID)
  let req : HttpRequest :=
    { method := "PUT", url := url,
      headers := [("Content-Type", "application/json"),
        ("Authorization", "Basic " ++ s.AuthToken), ("If-Match", etag)],
      body := some body }
  { client := s, request := req,
    result :=
      if resp.status = 200 then
        match unmarshalAWSLogSourceRequest resp.body with
        | .error e => .error (.jsonError e)
        | .ok r => .ok r.Source
      else if resp.status = 401 then .error .clientAuthenticationError
      else if resp.status = 400 then
        let e := (unmarshalErrorGo resp.body).1
        if e.Message = "Cannot authenticate with AWS."
            ∨ e.Message = "Invalid IAM role: 'errorCode=AccessDenied'." then
          .error .awsAuthenticationError
        else
          .error (.errorf ("Bad Request. Please check if a source with this name `"
            ++ source.Name ++ "` already exists"))
      else .error (.errorf (sourceUnknownMsg resp.status)) }

/-- `DeleteAWSLogSource` against the given response. -/
def DeleteAWSLogSource (s : Client) (collectorID id : Int) (resp : HttpResponse) :
    Outcome (Option GoError) :=
  let url := resolveReference s.EndpointURL
    ("collectors/" ++ toString collectorID ++ "/sources/" ++ toString id)
  let req : HttpRequest :=
    { method := "DELETE", url := url,
      headers := [("Authorization", "Basic " ++ s.AuthToken)], body := none }
  { client := s, request := req,
    result :=
      if resp.status = 200 then none
      else if resp.status = 404 then some .sourceNotFound
      else if resp.status = 401 then some .clientAuthenticationError
      else some (.errorf (sourceUnknownMsg resp.status)) }

/-! ## Lookup and reader lemmas over the marshalled field lists -/

theorem jlookup_nil (k : String) : jlookup [] k = none := rfl

theorem jlookup_pair (k' : String) (v : Json) (rest : List (String × Json))
    (k : String) :
    jlookup ((k', v) :: rest) k = if k' = k then some v else jlookup rest k := rfl

theorem jlookup_emitInt (k' : String) (n : Int) (rest : List (String × Json))
    (k : String) :
    jlookup (emitInt k' n ++ rest) k =
      if k' = k then (if n = 0 then jlookup rest k else some (.num n))
      else jlookup rest k := by
  unfold emitInt
  by_cases h : n = 0 <;> by_cases hk : k' = k <;> simp [h, hk, jlookup]

theorem jlookup_emitInt_only (k' : String) (n : Int) (k : String) :
    jlookup (emitInt k' n) k =
      if k' = k then (if n = 0 then none else some (.num n)) else none := by
  have := jlookup_emitInt k' n [] k
  simpa [jlookup_nil] using this

theorem jlookup_emitStr (k' : String) (s : String) (rest : List (String × Json))
    (k : String) :
    jlookup (emitStr k' s ++ rest) k =
      if k' = k then (if s = "" then jlookup rest k else some (.str s))
      else jlookup rest k := by
  unfold emitStr
  by_cases h : s = "" <;> by_cases hk : k' = k <;> simp [h, hk, jlookup]

theorem jlookup_emitStr_only (k' : String) (s : String) (k : String) :
    jlookup (emitStr k' s) k =
      if k' = k then (if s = "" then none else some (.str s)) else none := by
  have := jlookup_emitStr k' s [] k
  simpa [jlookup_nil] using this

theorem jlookup_emitBool (k' : String) (b : Bool) (rest : List (String × Json))
    (k : String) :
    jlookup (emitBool k' b ++ rest) k =
      if k' = k then (if b = false then jlookup rest k else some (.bool b))
      else jlookup rest k := by
  unfold emitBool
  by_cases h : b = false <;> by_cases hk : k' = k <;> simp [h, hk, jlookup]

theorem jlookup_emitBool_only (k' : String) (b : Bool) (k : String) :
    jlookup (emitBool k' b) k =
      if k' = k then (if b = false then none else some (.bool b)) else none := by
  have := jlookup_emitBool k' b [] k
  simpa [jlookup_nil] using this

theorem jlookup_emitArr (k' : String) (js : List Json)
    (rest : List (String × Json)) (k : String) :
    jlookup (emitArr k' js ++ rest) k =
      if k' = k then (if js.isEmpty then jlookup rest k else some (.arr js))
      else jlookup rest k := by
  unfold emitArr
  cases js <;> by_cases hk : k' = k <;> simp [hk, jlookup]

theorem jlookup_emitArr_only (k' : String) (js : List Json) (k : String) :
    jlookup (emitArr k' js) k =
      if k' = k then (if js.isEmpty then none else some (.arr js)) else none := by
  have := jlookup_emitArr k' js [] k
  simpa [jlookup_nil] using this

theorem readInt_omitempty (fields : List (String × Json)) (k : String) (n : Int)
    (h : jlookup fields k = if n = 0 then none else some (.num n)) :
    readInt fields k = .ok n := by
  unfold readInt
  rw [h]
  by_cases hn : n = 0 <;> simp [hn]

theorem readStr_omitempty (fields : List (String × Json)) (k : String)
    (s : String) (h : jlookup fields k = if s = "" then none else some (.str s)) :
    readStr fields k = .ok s := by
  unfold readStr
  rw [h]
  by_cases hs : s = "" <;> simp [hs]

theorem readBool_omitempty (fields : List (String × Json)) (k : String)
    (b : Bool) (h : jlookup fields k = if b = false then none else some (.bool b)) :
    readBool fields k = .ok b := by
  unfold readBool
  rw [h]
  by_cases hb : b = false <;> simp [hb]

theorem readStr_found (fields : List (String × Json)) (k : String) (s : String)
    (h : jlookup fields k = some (.str s)) : readStr fields k = .ok s := by
  unfold readStr
  rw [h]

theorem readBool_found (fields : List (String × Json)) (k : String) (b : Bool)
    (h : jlookup fields k = some (.bool b)) : readBool fields k = .ok b := by
  unfold readBool
  rw [h]

theorem readObjField_obj {α : Type} (fields : List (String × Json)) (k : String)
    (dec : Json → Except String α) (z : α) (gs : List (String × Json)) (a : α)
    (h : jlookup fields k = some (.obj gs)) (hdec : dec (.obj gs) = .ok a) :
    readObjField fields k dec z = .ok a := by
  unfold readObjField
  rw [h]
  exact hdec

theorem decListAux_map {α : Type} (dec : Json → Except String α) (enc : α → Json)
    (h : ∀ x, dec (enc x) = .ok x) :
    ∀ xs : List α, decListAux dec (xs.map enc) = .ok xs
  | [] => rfl
  | x :: xs => by
    simp [List.map, decListAux, h x, decListAux_map dec enc h xs]

theorem readArrField_emit {α : Type} (fields : List (String × Json)) (k : String)
    (dec : Json → Except String α) (enc : α → Json) (xs : List α)
    (hrt : ∀ x, dec (enc x) = .ok x)
    (h : jlookup fields k =
      if (xs.map enc).isEmpty then none else some (.arr (xs.map enc))) :
    readArrField fields k dec = .ok xs := by
  unfold readArrField
  rw [h]
  cases xs with
  | nil => simp
  | cons x xs => simpa using decListAux_map dec enc hrt (x :: xs)

/-! ## Round-trip lemmas: unmarshal of marshal is the identity -/

theorem decode_encode_collectorLinks (l : CollectorLinks) :
    decodeCollectorLinks (encodeCollectorLinks l) = .ok l := rfl

theorem decode_encode_awsBucketPath (p : AWSBucketPath) :
    decodeAWSBucketPath (encodeAWSBucketPath p) = .ok p := rfl

theorem decode_encode_awsBucketAuthentication (a : AWSBucketAuthentication) :
    decodeAWSBucketAuthentication (encodeAWSBucketAuthentication a) = .ok a := rfl

theorem decode_encode_awsBucketResource (r : AWSBucketResource) :
    decodeAWSBucketResource (encodeAWSBucketResource r) = .ok r := rfl

theorem decode_encode_filter (f : Filter) :
    decodeFilter (encodeFilter f) = .ok f := by
  have h1 : readStr (filterFields f) "filterType" = .ok f.FilterType :=
    readStr_omitempty _ _ _
      (by simp +decide [filterFields, jlookup_emitStr, jlookup_emitStr_only])
  have h2 : readStr (filterFields f) "name" = .ok f.Name :=
    readStr_omitempty _ _ _
      (by simp +decide [filterFields, jlookup_emitStr, jlookup_emitStr_only])
  have h3 : readStr (filterFields f) "regexp" = .ok f.Regexp :=
    readStr_omitempty _ _ _
      (by simp +decide [filterFields, jlookup_emitStr, jlookup_emitStr_only])
  simp only [encodeFilter, decodeFilter, h1, h2, h3]

theorem decode_encode_thirdPartyRef (t : AWSBucketThirdPartyRef) :
    decodeAWSBucketThirdPartyRef (encodeAWSBucketThirdPartyRef t) = .ok t := by
  have h : readArrField (thirdPartyRefFields t) "resources"
      decodeAWSBucketResource = .ok t.Resources :=
    readArrField_emit _ _ _ encodeAWSBucketResource _
      decode_encode_awsBucketResource
      (by simp +decide [thirdPartyRefFields, jlookup_emitArr_only])
  simp only [encodeAWSBucketThirdPartyRef, decodeAWSBucketThirdPartyRef, h]

theorem decode_marshal_collector (c : Collector) :
    decodeCollector (marshalCollector c) = .ok c := by
  have h1 : readInt (collectorFields c) "id" = .ok c.ID :=
    readInt_omitempty _ _ _ (by
      simp +decide [collectorFields, jlookup_emitInt, jlookup_emitStr,
        jlookup_emitBool, jlookup_emitArr, jlookup_pair, jlookup_emitInt_only,
        jlookup_emitStr_only, jlookup_emitBool_only, jlookup_emitArr_only,
        jlookup_nil])
  have h2 : readStr (collectorFields c) "name" = .ok c.Name :=
    readStr_found _ _ _ (by
      simp +decide [collectorFields, jlookup_emitInt, jlookup_emitStr,
        jlookup_emitBool, jlookup_emitArr, jlookup_pair, jlookup_emitInt_only,
        jlookup_emitStr_only, jlookup_emitBool_only, jlookup_emitArr_only,
        jlookup_nil])
  have h3 : readStr (collectorFields c) "description" = .ok c.Description :=
    readStr_omitempty _ _ _ (by
      simp +decide [collectorFields, jlookup_emitInt, jlookup_emitStr,
        jlookup_emitBool, jlookup_emitArr, jlookup_pair, jlookup_emitInt_only,
        jlookup_emitStr_only, jlookup_emitBool_only, jlookup_emitArr_only,
        jlookup_nil])
  have h4 : readStr (collectorFields c) "category" = .ok c.Category :=
    readStr_omitempty _ _ _ (by
      simp +decide [collectorFields, jlookup_emitInt, jlookup_emitStr,
        jlookup_emitBool, jlookup_emitArr, jlookup_pair, jlookup_emitInt_only,
        jlookup_emitStr_only, jlookup_emitBool_only, jlookup_emitArr_only,
        jlookup_nil])
  have h5 : readStr (collectorFields c) "timezone" = .ok c.TimeZone :=
    readStr_omitempty _ _ _ (by
      simp +decide [collectorFields, jlookup_emitInt, jlookup_emitStr,
        jlookup_emitBool, jlookup_emitArr, jlookup_pair, jlookup_emitInt_only,
        jlookup_emitStr_only, jlookup_emitBool_only, jlookup_emitArr_only,
        jlookup_nil])
  have h6 : readArrField (collectorFields c) "links" decodeCollectorLinks
      = .ok c.Links :=
    readArrField_emit _ _ _ encodeCollectorLinks _ decode_encode_collectorLinks
      (by
      simp +decide [collectorFields, jlookup_emitInt, jlookup_emitStr,
        jlookup_emitBool, jlookup_emitArr, jlookup_pair, jlookup_emitInt_only,
        jlookup_emitStr_only, jlookup_emitBool_only, jlookup_emitArr_only,
        jlookup_nil])
  have h7 : readStr (collectorFields c) "collectorType" = .ok c.CollectorType :=
    readStr_omitempty _ _ _ (by
      simp +decide [collectorFields, jlookup_emitInt, jlookup_emitStr,
        jlookup_emitBool, jlookup_emitArr, jlookup_pair, jlookup_emitInt_only,
        jlookup_emitStr_only, jlookup_emitBool_only, jlookup_emitArr_only,
        jlookup_nil])
  have h8 : readStr (collectorFields c) "collectorVersion"
      = .ok c.CollectorVersion :=
    readStr_omitempty _ _ _ (by
      simp +decide [collectorFields, jlookup_emitInt, jlookup_emitStr,
        jlookup_emitBool, jlookup_emitArr, jlookup_pair, jlookup_emitInt_only,
        jlookup_emitStr_only, jlookup_emitBool_only, jlookup_emitArr_only,
        jlookup_nil])
  have h9 : readInt (collectorFields c) "lastSeenAlive" = .ok c.LastSeenAlive :=
    readInt_omitempty _ _ _ (by
      simp +decide [collectorFields, jlookup_emitInt, jlookup_emitStr,
        jlookup_emitBool, jlookup_emitArr, jlookup_pair, jlookup_emitInt_only,
        jlookup_emitStr_only, jlookup_emitBool_only, jlookup_emitArr_only,
        jlookup_nil])
  have h10 : readBool (collectorFields c) "alive" = .ok c.Alive :=
    readBool_omitempty _ _ _ (by
      simp +decide [collectorFields, jlookup_emitInt, jlookup_emitStr,
        jlookup_emitBool, jlookup_emitArr, jlookup_pair, jlookup_emitInt_only,
        jlookup_emitStr_only, jlookup_emitBool_only, jlookup_emitArr_only,
        jlookup_nil])
  simp only [marshalCollector, decodeCollector, h1, h2, h3, h4, h5, h6, h7,
    h8, h9, h10]


theorem decode_marshal_httpSource (s : HTTPSource) :
    decodeHTTPSource (marshalHTTPSource s) = .ok s := by
  have h1 : readInt (httpSourceFields s) "id" = .ok s.ID :=
    readInt_omitempty _ _ _ (by
      simp +decide [httpSourceFields, jlookup_emitInt, jlookup_emitStr,
        jlookup_emitBool, jlookup_emitArr, jlookup_pair, jlookup_emitInt_only,
        jlookup_emitStr_only, jlookup_emitBool_only, jlookup_emitArr_only,
        jlookup_nil, encodeAWSBucketThirdPartyRef])
  have h2 : readStr (httpSourceFields s) "name" = .ok s.Name :=
    readStr_found _ _ _ (by
      simp +decide [httpSourceFields, jlookup_emitInt, jlookup_emitStr,
        jlookup_emitBool, jlookup_emitArr, jlookup_pair, jlookup_emitInt_only,
        jlookup_emitStr_only, jlookup_emitBool_only, jlookup_emitArr_only,
        jlookup_nil, encodeAWSBucketThirdPartyRef])
  have h3 : readInt (httpSourceFields s) "CollectorId" = .ok s.CollectorID :=
    readInt_omitempty _ _ _ (by
      simp +decide [httpSourceFields, jlookup_emitInt, jlookup_emitStr,
        jlookup_emitBool, jlookup_emitArr, jlookup_pair, jlookup_emitInt_only,
        jlookup_emitStr_only, jlookup_emitBool_only, jlookup_emitArr_only,
        jlookup_nil, encodeAWSBucketThirdPartyRef])
  have h4 : readStr (httpSourceFields s) "description" = .ok s.Description :=
    readStr_omitempty _ _ _ (by
      simp +decide [httpSourceFields, jlookup_emitInt, jlookup_emitStr,
        jlookup_emitBool, jlookup_emitArr, jlookup_pair, jlookup_emitInt_only,
        jlookup_emitStr_only, jlookup_emitBool_only, jlookup_emitArr_only,
        jlookup_nil, encodeAWSBucketThirdPartyRef])
  have h5 : readStr (httpSourceFields s) "category" = .ok s.Category :=
    readStr_omitempty _ _ _ (by
      simp +decide [httpSourceFields, jlookup_emitInt, jlookup_emitStr,
        jlookup_emitBool, jlookup_emitArr, jlookup_pair, jlookup_emitInt_only,
        jlookup_emitStr_only, jlookup_emitBool_only, jlookup_emitArr_only,
        jlookup_nil, encodeAWSBucketThirdPartyRef])
  have h6 : readStr (httpSourceFields s) "timezone" = .ok s.TimeZone :=
    readStr_omitempty _ _ _ (by
      simp +decide [httpSourceFields, jlookup_emitInt, jlookup_emitStr,
        jlookup_emitBool, jlookup_emitArr, jlookup_pair, jlookup_emitInt_only,
        jlookup_emitStr_only, jlookup_emitBool_only, jlookup_emitArr_only,
        jlookup_nil, encodeAWSBucketThirdPartyRef])
  have h7 : readStr (httpSourceFields s) "sourceType" = .ok s.SourceType :=
    readStr_omitempty _ _ _ (by
      simp +decide [httpSourceFields, jlookup_emitInt, jlookup_emitStr,
        jlookup_emitBool, jlookup_emitArr, jlookup_pair, jlookup_emitInt_only,
        jlookup_emitStr_only, jlookup_emitBool_only, jlookup_emitArr_only,
        jlookup_nil, encodeAWSBucketThirdPartyRef])
  have h8 : readBool (httpSourceFields s) "messagePerRequest" = .ok s.MessagePerRequest :=
    readBool_found _ _ _ (by
      simp +decide [httpSourceFields, jlookup_emitInt, jlookup_emitStr,
        jlookup_emitBool, jlookup_emitArr, jlookup_pair, jlookup_emitInt_only,
        jlookup_emitStr_only, jlookup_emitBool_only, jlookup_emitArr_only,
        jlookup_nil, encodeAWSBucketThirdPartyRef])
  have h9 : readBool (httpSourceFields s) "multilineProcessingEnabled" = .ok s.MultilineProcessingEnabled :=
    readBool_found _ _ _ (by
      simp +decide [httpSourceFields, jlookup_emitInt, jlookup_emitStr,
        jlookup_emitBool, jlookup_emitArr, jlookup_pair, jlookup_emitInt_only,
        jlookup_emitStr_only, jlookup_emitBool_only, jlookup_emitArr_only,
        jlookup_nil, encodeAWSBucketThirdPartyRef])
  have h10 : readBool (httpSourceFields s) "useAutolineMatching" = .ok s.UseAutolineMatching :=
    readBool_found _ _ _ (by
      simp +decide [httpSourceFields, jlookup_emitInt, jlookup_emitStr,
        jlookup_emitBool, jlookup_emitArr, jlookup_pair, jlookup_emitInt_only,
        jlookup_emitStr_only, jlookup_emitBool_only, jlookup_emitArr_only,
        jlookup_nil, encodeAWSBucketThirdPartyRef])
  have h11 : readStr (httpSourceFields s) "manualPrefixRegexp" = .ok s.ManualPrefixRegexp :=
    readStr_omitempty _ _ _ (by
      simp +decide [httpSourceFields, jlookup_emitInt, jlookup_emitStr,
        jlookup_emitBool, jlookup_emitArr, jlookup_pair, jlookup_emitInt_only,
        jlookup_emitStr_only, jlookup_emitBool_only, jlookup_emitArr_only,
        jlookup_nil, encodeAWSBucketThirdPartyRef])
  have h12 : readStr (httpSourceFields s) "url" = .ok s.Url :=
    readStr_omitempty _ _ _ (by
      simp +decide [httpSourceFields, jlookup_emitInt, jlookup_emitStr,
        jlookup_emitBool, jlookup_emitArr, jlookup_pair, jlookup_emitInt_only,
        jlookup_emitStr_only, jlookup_emitBool_only, jlookup_emitArr_only,
        jlookup_nil, encodeAWSBucketThirdPartyRef])
  have h13 : readArrField (httpSourceFields s) "filters" decodeFilter = .ok s.Filters :=
    readArrField_emit _ _ _ encodeFilter _ decode_encode_filter
      (by
      simp +decide [httpSourceFields, jlookup_emitInt, jlookup_emitStr,
        jlookup_emitBool, jlookup_emitArr, jlookup_pair, jlookup_emitInt_only,
        jlookup_emitStr_only, jlookup_emitBool_only, jlookup_emitArr_only,
        jlookup_nil, encodeAWSBucketThirdPartyRef])
  simp only [marshalHTTPSource, decodeHTTPSource, h1, h2, h3, h4, h5, h6, h7, h8, h9, h10, h11, h12, h13]

theorem decode_marshal_awsCloudTrailSource (s : AWSCloudTrailSource) :
    decodeAWSCloudTrailSource (marshalAWSCloudTrailSource s) = .ok s := by
  have h1 : readInt (awsCloudTrailSourceFields s) "id" = .ok s.ID :=
    readInt_omitempty _ _ _ (by
      simp +decide [awsCloudTrailSourceFields, jlookup_emitInt, jlookup_emitStr,
        jlookup_emitBool, jlookup_emitArr, jlookup_pair, jlookup_emitInt_only,
        jlookup_emitStr_only, jlookup_emitBool_only, jlookup_emitArr_only,
        jlookup_nil, encodeAWSBucketThirdPartyRef])
  have h2 : readStr (awsCloudTrailSourceFields s) "name" = .ok s.Name :=
    readStr_found _ _ _ (by
      simp +decide [awsCloudTrailSourceFields, jlookup_emitInt, jlookup_emitStr,
        jlookup_emitBool, jlookup_emitArr, jlookup_pair, jlookup_emitInt_only,
        jlookup_emitStr_only, jlookup_emitBool_only, jlookup_emitArr_only,
        jlookup_nil, encodeAWSBucketThirdPartyRef])
  have h3 : readInt (awsCloudTrailSourceFields s) "CollectorId" = .ok s.CollectorID :=
    readInt_omitempty _ _ _ (by
      simp +decide [awsCloudTrailSourceFields, jlookup_emitInt, jlookup_emitStr,
        jlookup_emitBool, jlookup_emitArr, jlookup_pair, jlookup_emitInt_only,
        jlookup_emitStr_only, jlookup_emitBool_only, jlookup_emitArr_only,
        jlookup_nil, encodeAWSBucketThirdPartyRef])
  have h4 : readStr (awsCloudTrailSourceFields s) "description" = .ok s.Description :=
    readStr_omitempty _ _ _ (by
      simp +decide [awsCloudTrailSourceFields, jlookup_emitInt, jlookup_emitStr,
        jlookup_emitBool, jlookup_emitArr, jlookup_pair, jlookup_emitInt_only,
        jlookup_emitStr_only, jlookup_emitBool_only, jlookup_emitArr_only,
        jlookup_nil, encodeAWSBucketThirdPartyRef])
  have h5 : readStr (awsCloudTrailSourceFields s) "category" = .ok s.Category :=
    readStr_omitempty _ _ _ (by
      simp +decide [awsCloudTrailSourceFields, jlookup_emitInt, jlookup_emitStr,
        jlookup_emitBool, jlookup_emitArr, jlookup_pair, jlookup_emitInt_only,
        jlookup_emitStr_only, jlookup_emitBool_only, jlookup_emitArr_only,
        jlookup_nil, encodeAWSBucketThirdPartyRef])
  have h6 : readStr (awsCloudTrailSourceFields s) "timezone" = .ok s.TimeZone :=
    readStr_omitempty _ _ _ (by
      simp +decide [awsCloudTrailSourceFields, jlookup_emitInt, jlookup_emitStr,
        jlookup_emitBool, jlookup_emitArr, jlookup_pair, jlookup_emitInt_only,
        jlookup_emitStr_only, jlookup_emitBool_only, jlookup_emitArr_only,
        jlookup_nil, encodeAWSBucketThirdPartyRef])
  have h7 : readStr (awsCloudTrailSourceFields s) "sourceType" = .ok s.SourceType :=
    readStr_omitempty _ _ _ (by
      simp +decide [awsCloudTrailSourceFields, jlookup_emitInt, jlookup_emitStr,
        jlookup_emitBool, jlookup_emitArr, jlookup_pair, jlookup_emitInt_only,
        jlookup_emitStr_only, jlookup_emitBool_only, jlookup_emitArr_only,
        jlookup_nil, encodeAWSBucketThirdPartyRef])
  have h8 : readStr (awsCloudTrailSourceFields s) "contentType" = .ok s.ContentType :=
    readStr_omitempty _ _ _ (by
      simp +decide [awsCloudTrailSourceFields, jlookup_emitInt, jlookup_emitStr,
        jlookup_emitBool, jlookup_emitArr, jlookup_pair, jlookup_emitInt_only,
        jlookup_emitStr_only, jlookup_emitBool_only, jlookup_emitArr_only,
        jlookup_nil, encodeAWSBucketThirdPartyRef])
  have h9 : readInt (awsCloudTrailSourceFields s) "scanInterval" = .ok s.ScanInterval :=
    readInt_omitempty _ _ _ (by
      simp +decide [awsCloudTrailSourceFields, jlookup_emitInt, jlookup_emitStr,
        jlookup_emitBool, jlookup_emitArr, jlookup_pair, jlookup_emitInt_only,
        jlookup_emitStr_only, jlookup_emitBool_only, jlookup_emitArr_only,
        jlookup_nil, encodeAWSBucketThirdPartyRef])
  have h10 : readBool (awsCloudTrailSourceFields s) "paused" = .ok s.Paused :=
    readBool_found _ _ _ (by
      simp +decide [awsCloudTrailSourceFields, jlookup_emitInt, jlookup_emitStr,
        jlookup_emitBool, jlookup_emitArr, jlookup_pair, jlookup_emitInt_only,
        jlookup_emitStr_only, jlookup_emitBool_only, jlookup_emitArr_only,
        jlookup_nil, encodeAWSBucketThirdPartyRef])
  have h11 : readStr (awsCloudTrailSourceFields s) "cutoffRelativeTime" = .ok s.CutoffRelativeTime :=
    readStr_found _ _ _ (by
      simp +decide [awsCloudTrailSourceFields, jlookup_emitInt, jlookup_emitStr,
        jlookup_emitBool, jlookup_emitArr, jlookup_pair, jlookup_emitInt_only,
        jlookup_emitStr_only, jlookup_emitBool_only, jlookup_emitArr_only,
        jlookup_nil, encodeAWSBucketThirdPartyRef])
  have h12 : readObjField (awsCloudTrailSourceFields s) "thirdPartyRef" decodeAWSBucketThirdPartyRef AWSBucketThirdPartyRef.zero = .ok s.ThirdPartyRef :=
    readObjField_obj _ _ _ _ (thirdPartyRefFields s.ThirdPartyRef) _
      (by
      simp +decide [awsCloudTrailSourceFields, jlookup_emitInt, jlookup_emitStr,
        jlookup_emitBool, jlookup_emitArr, jlookup_pair, jlookup_emitInt_only,
        jlookup_emitStr_only, jlookup_emitBool_only, jlookup_emitArr_only,
        jlookup_nil, encodeAWSBucketThirdPartyRef])
      (decode_encode_thirdPartyRef s.ThirdPartyRef)
  simp only [marshalAWSCloudTrailSource, decodeAWSCloudTrailSource, h1, h2, h3, h4, h5, h6, h7, h8, h9, h10, h11, h12]

theorem decode_marshal_awsLogSource (s : AWSLogSource) :
    decodeAWSLogSource (marshalAWSLogSource s) = .ok s := by
  have h1 : readInt (awsLogSourceFields s) "id" = .ok s.ID :=
    readInt_omitempty _ _ _ (by
      simp +decide [awsLogSourceFields, jlookup_emitInt, jlookup_emitStr,
        jlookup_emitBool, jlookup_emitArr, jlookup_pair, jlookup_emitInt_only,
        jlookup_emitStr_only, jlookup_emitBool_only, jlookup_emitArr_only,
        jlookup_nil, encodeAWSBucketThirdPartyRef])
  have h2 : readStr (awsLogSourceFields s) "name" = .ok s.Name :=
    readStr_found _ _ _ (by
      simp +decide [awsLogSourceFields, jlookup_emitInt, jlookup_emitStr,
        jlookup_emitBool, jlookup_emitArr, jlookup_pair, jlookup_emitInt_only,
        jlookup_emitStr_only, jlookup_emitBool_only, jlookup_emitArr_only,
        jlookup_nil, encodeAWSBucketThirdPartyRef])
  have h3 : readInt (awsLogSourceFields s) "CollectorId" = .ok s.CollectorID :=
    readInt_omitempty _ _ _ (by
      simp +decide [awsLogSourceFields, jlookup_emitInt, jlookup_emitStr,
        jlookup_emitBool, jlookup_emitArr, jlookup_pair, jlookup_emitInt_only,
        jlookup_emitStr_only, jlookup_emitBool_only, jlookup_emitArr_only,
        jlookup_nil, encodeAWSBucketThirdPartyRef])
  have h4 : readStr (awsLogSourceFields s) "description" = .ok s.Description :=
    readStr_omitempty _ _ _ (by
      simp +decide [awsLogSourceFields, jlookup_emitInt, jlookup_emitStr,
        jlookup_emitBool, jlookup_emitArr, jlookup_pair, jlookup_emitInt_only,
        jlookup_emitStr_only, jlookup_emitBool_only, jlookup_emitArr_only,
        jlookup_nil, encodeAWSBucketThirdPartyRef])
  have h5 : readStr (awsLogSourceFields s) "category" = .ok s.Category :=
    readStr_omitempty _ _ _ (by
      simp +decide [awsLogSourceFields, jlookup_emitInt, jlookup_emitStr,
        jlookup_emitBool, jlookup_emitArr, jlookup_pair, jlookup_emitInt_only,
        jlookup_emitStr_only, jlookup_emitBool_only, jlookup_emitArr_only,
        jlookup_nil, encodeAWSBucketThirdPartyRef])
  have h6 : readStr (awsLogSourceFields s) "timezone" = .ok s.TimeZone :=
    readStr_omitempty _ _ _ (by
      simp +decide [awsLogSourceFields, jlookup_emitInt, jlookup_emitStr,
        jlookup_emitBool, jlookup_emitArr, jlookup_pair, jlookup_emitInt_only,
        jlookup_emitStr_only, jlookup_emitBool_only, jlookup_emitArr_only,
        jlookup_nil, encodeAWSBucketThirdPartyRef])
  have h7 : readStr (awsLogSourceFields s) "sourceType" = .ok s.SourceType :=
    readStr_omitempty _ _ _ (by
      simp +decide [awsLogSourceFields, jlookup_emitInt, jlookup_emitStr,
        jlookup_emitBool, jlookup_emitArr, jlookup_pair, jlookup_emitInt_only,
        jlookup_emitStr_only, jlookup_emitBool_only, jlookup_emitArr_only,
        jlookup_nil, encodeAWSBucketThirdPartyRef])
  have h8 : readStr (awsLogSourceFields s) "contentType" = .ok s.ContentType :=
    readStr_omitempty _ _ _ (by
      simp +decide [awsLogSourceFields, jlookup_emitInt, jlookup_emitStr,
        jlookup_emitBool, jlookup_emitArr, jlookup_pair, jlookup_emitInt_only,
        jlookup_emitStr_only, jlookup_emitBool_only, jlookup_emitArr_only,
        jlookup_nil, encodeAWSBucketThirdPartyRef])
  have h9 : readInt (awsLogSourceFields s) "scanInterval" = .ok s.ScanInterval :=
    readInt_omitempty _ _ _ (by
      simp +decide [awsLogSourceFields, jlookup_emitInt, jlookup_emitStr,
        jlookup_emitBool, jlookup_emitArr, jlookup_pair, jlookup_emitInt_only,
        jlookup_emitStr_only, jlookup_emitBool_only, jlookup_emitArr_only,
        jlookup_nil, encodeAWSBucketThirdPartyRef])
  have h10 : readBool (awsLogSourceFields s) "paused" = .ok s.Paused :=
    readBool_found _ _ _ (by
      simp +decide [awsLogSourceFields, jlookup_emitInt, jlookup_emitStr,
        jlookup_emitBool, jlookup_emitArr, jlookup_pair, jlookup_emitInt_only,
        jlookup_emitStr_only, jlookup_emitBool_only, jlookup_emitArr_only,
        jlookup_nil, encodeAWSBucketThirdPartyRef])
  have h11 : readStr (awsLogSourceFields s) "cutoffRelativeTime" = .ok s.CutoffRelativeTime :=
    readStr_omitempty _ _ _ (by
      simp +decide [awsLogSourceFields, jlookup_emitInt, jlookup_emitStr,
        jlookup_emitBool, jlookup_emitArr, jlookup_pair, jlookup_emitInt_only,
        jlookup_emitStr_only, jlookup_emitBool_only, jlookup_emitArr_only,
        jlookup_nil, encodeAWSBucketThirdPartyRef])
  have h12 : readBool (awsLogSourceFields s) "multilineProcessingEnabled" = .ok s.MultilineProcessingEnabled :=
    readBool_omitempty _ _ _ (by
      simp +decide [awsLogSourceFields, jlookup_emitInt, jlookup_emitStr,
        jlookup_emitBool, jlookup_emitArr, jlookup_pair, jlookup_emitInt_only,
        jlookup_emitStr_only, jlookup_emitBool_only, jlookup_emitArr_only,
        jlookup_nil, encodeAWSBucketThirdPartyRef])
  have h13 : readBool (awsLogSourceFields s) "useAutolineMatching" = .ok s.UseAutolineMatching :=
    readBool_omitempty _ _ _ (by
      simp +decide [awsLogSourceFields, jlookup_emitInt, jlookup_emitStr,
        jlookup_emitBool, jlookup_emitArr, jlookup_pair, jlookup_emitInt_only,
        jlookup_emitStr_only, jlookup_emitBool_only, jlookup_emitArr_only,
        jlookup_nil, encodeAWSBucketThirdPartyRef])
  have h14 : readStr (awsLogSourceFields s) "manualPrefixRegexp" = .ok s.ManualPrefixRegexp :=
    readStr_omitempty _ _ _ (by
      simp +decide [awsLogSourceFields, jlookup_emitInt, jlookup_emitStr,
        jlookup_emitBool, jlookup_emitArr, jlookup_pair, jlookup_emitInt_only,
        jlookup_emitStr_only, jlookup_emitBool_only, jlookup_emitArr_only,
        jlookup_nil, encodeAWSBucketThirdPartyRef])
  have h15 : readStr (awsLogSourceFields s) "url" = .ok s.Url :=
    readStr_omitempty _ _ _ (by
      simp +decide [awsLogSourceFields, jlookup_emitInt, jlookup_emitStr,
        jlookup_emitBool, jlookup_emitArr, jlookup_pair, jlookup_emitInt_only,
        jlookup_emitStr_only, jlookup_emitBool_only, jlookup_emitArr_only,
        jlookup_nil, encodeAWSBucketThirdPartyRef])
  have h16 : readObjField (awsLogSourceFields s) "thirdPartyRef" decodeAWSBucketThirdPartyRef AWSBucketThirdPartyRef.zero = .ok s.ThirdPartyRef :=
    readObjField_obj _ _ _ _ (thirdPartyRefFields s.ThirdPartyRef) _
      (by
      simp +decide [awsLogSourceFields, jlookup_emitInt, jlookup_emitStr,
        jlookup_emitBool, jlookup_emitArr, jlookup_pair, jlookup_emitInt_only,
        jlookup_emitStr_only, jlookup_emitBool_only, jlookup_emitArr_only,
        jlookup_nil, encodeAWSBucketThirdPartyRef])
      (decode_encode_thirdPartyRef s.ThirdPartyRef)
  simp only [marshalAWSLogSource, decodeAWSLogSource, h1, h2, h3, h4, h5, h6, h7, h8, h9, h10, h11, h12, h13, h14, h15, h16]

theorem unmarshal_marshal_collectorRequest (r : CollectorRequest) :
    unmarshalCollectorRequest (some (marshalCollectorRequest r)) = .ok r := by
  have h : readObjField [("collector", marshalCollector r.Collector)] "collector"
      decodeCollector Collector.zero = .ok r.Collector :=
    readObjField_obj _ _ _ _ (collectorFields r.Collector) _
      (by simp +decide [jlookup_pair, marshalCollector])
      (decode_marshal_collector r.Collector)
  simp only [marshalCollectorRequest, unmarshalCollectorRequest, h]

theorem unmarshal_marshal_httpSourceRequest (r : HTTPSourceRequest) :
    unmarshalHTTPSourceRequest (some (marshalHTTPSourceRequest r)) = .ok r := by
  have h : readObjField [("source", marshalHTTPSource r.Source)] "source"
      decodeHTTPSource HTTPSource.zero = .ok r.Source :=
    readObjField_obj _ _ _ _ (httpSourceFields r.Source) _
      (by simp +decide [jlookup_pair, marshalHTTPSource])
      (decode_marshal_httpSource r.Source)
  simp only [marshalHTTPSourceRequest, unmarshalHTTPSourceRequest, h]

theorem unmarshal_marshal_awsCloudTrailSourceRequest
    (r : AWSCloudTrailSourceRequest) :
    unmarshalAWSCloudTrailSourceRequest
      (some (marshalAWSCloudTrailSourceRequest r)) = .ok r := by
  have h : readObjField [("source", marshalAWSCloudTrailSource r.Source)]
      "source" decodeAWSCloudTrailSource AWSCloudTrailSource.zero
      = .ok r.Source :=
    readObjField_obj _ _ _ _ (awsCloudTrailSourceFields r.Source) _
      (by simp +decide [jlookup_pair, marshalAWSCloudTrailSource])
      (decode_marshal_awsCloudTrailSource r.Source)
  simp only [marshalAWSCloudTrailSourceRequest,
    unmarshalAWSCloudTrailSourceRequest, h]

theorem unmarshal_marshal_awsLogSourceRequest (r : AWSLogSourceRequest) :
    unmarshalAWSLogSourceRequest (some (marshalAWSLogSourceRequest r)) = .ok r := by
  have h : readObjField [("source", marshalAWSLogSource r.Source)] "source"
      decodeAWSLogSource AWSLogSource.zero = .ok r.Source :=
    readObjField_obj _ _ _ _ (awsLogSourceFields r.Source) _
      (by simp +decide [jlookup_pair, marshalAWSLogSource])
      (decode_marshal_awsLogSource r.Source)
  simp only [marshalAWSLogSourceRequest, unmarshalAWSLogSourceRequest, h]

/-! ## Status-code taxonomy helpers, one per operation -/

theorem getHostedCollector_status_taxonomy (s : Client) (rid : Int)
    (resp : HttpResponse) :
    ((GetHostedCollector s rid resp).result = .error .collectorNotFound
      ↔ resp.status = 404)
    ∧ ((GetHostedCollector s rid resp).result
        = .error .clientAuthenticationError ↔ resp.status = 401)
    ∧ (resp.status ≠ 200 → resp.status ≠ 401 → resp.status ≠ 404 →
      (GetHostedCollector s rid resp).result
        = .error (.errorf (collectorUnknownMsg resp.status))) := by
  obtain ⟨st, et, b⟩ := resp
  by_cases h200 : st = 200
  · subst h200
    cases hu : unmarshalCollectorRequest b <;> simp [GetHostedCollector, hu]
  · by_cases h401 : st = 401
    · subst h401
      simp [GetHostedCollector]
    · by_cases h404 : st = 404
      · subst h404
        simp [GetHostedCollector]
      · simp [GetHostedCollector, h200, h401, h404]


theorem getHTTPSource_status_taxonomy (s : Client) (cid rid : Int)
    (resp : HttpResponse) :
    ((GetHTTPSource s cid rid resp).result = .error .sourceNotFound
      ↔ resp.status = 404)
    ∧ ((GetHTTPSource s cid rid resp).result
        = .error .clientAuthenticationError ↔ resp.status = 401)
    ∧ (resp.status ≠ 200 → resp.status ≠ 401 → resp.status ≠ 404 →
      (GetHTTPSource s cid rid resp).result
        = .error (.errorf (sourceUnknownMsg resp.status))) := by
  obtain ⟨st, et, b⟩ := resp
  by_cases h200 : st = 200
  · subst h200
    cases hu : unmarshalHTTPSourceRequest b <;> simp [GetHTTPSource, hu]
  · by_cases h401 : st = 401
    · subst h401
      simp [GetHTTPSource]
    · by_cases h404 : st = 404
      · subst h404
        simp [GetHTTPSource]
      · simp [GetHTTPSource, h200, h401, h404]

theorem getAWSCloudTrailSource_status_taxonomy (s : Client) (cid rid : Int)
    (resp : HttpResponse) :
    ((GetAWSCloudTrailSource s cid rid resp).result = .error .sourceNotFound
      ↔ resp.status = 404)
    ∧ ((GetAWSCloudTrailSource s cid rid resp).result
        = .error .clientAuthenticationError ↔ resp.status = 401)
    ∧ (resp.status ≠ 200 → resp.status ≠ 401 → resp.status ≠ 404 →
      (GetAWSCloudTrailSource s cid rid resp).result
        = .error (.errorf (sourceUnknownMsg resp.status))) := by
  obtain ⟨st, et, b⟩ := resp
  by_cases h200 : st = 200
  · subst h200
    cases hu : unmarshalAWSCloudTrailSourceRequest b <;> simp [GetAWSCloudTrailSource, hu]
  · by_cases h401 : st = 401
    · subst h401
      simp [GetAWSCloudTrailSource]
    · by_cases h404 : st = 404
      · subst h404
        simp [GetAWSCloudTrailSource]
      · simp [GetAWSCloudTrailSource, h200, h401, h404]

theorem getAWSLogSource_status_taxonomy (s : Client) (cid rid : Int)
    (resp : HttpResponse) :
    ((GetAWSLogSource s cid rid resp).result = .error .sourceNotFound
      ↔ resp.status = 404)
    ∧ ((GetAWSLogSource s cid rid resp).result
        = .error .clientAuthenticationError ↔ resp.status = 401)
    ∧ (resp.status ≠ 200 → resp.status ≠ 401 → resp.status ≠ 404 →
      (GetAWSLogSource s cid rid resp).result
        = .error (.errorf (sourceUnknownMsg resp.status))) := by
  obtain ⟨st, et, b⟩ := resp
  by_cases h200 : st = 200
  · subst h200
    cases hu : unmarshalAWSLogSourceRequest b <;> simp [GetAWSLogSource, hu]
  · by_cases h401 : st = 401
    · subst h401
      simp [GetAWSLogSource]
    · by_cases h404 : st = 404
      · subst h404
        simp [GetAWSLogSource]
      · simp [GetAWSLogSource, h200, h401, h404]

theorem deleteHostedCollector_status_taxonomy (s : Client) (rid : Int)
    (resp : HttpResponse) :
    ((DeleteHostedCollector s rid resp).result = none ↔ resp.status = 200)
    ∧ ((DeleteHostedCollector s rid resp).result = some .collectorNotFound ↔ resp.status = 404)
    ∧ ((DeleteHostedCollector s rid resp).result = some .clientAuthenticationError ↔ resp.status = 401)
    ∧ (resp.status ≠ 200 → resp.status ≠ 404 → resp.status ≠ 401 →
      (DeleteHostedCollector s rid resp).result = some (.errorf (collectorUnknownMsg resp.status))) := by
  obtain ⟨st, et, b⟩ := resp
  by_cases h200 : st = 200
  · subst h200
    simp [DeleteHostedCollector]
  · by_cases h404 : st = 404
    · subst h404
      simp [DeleteHostedCollector]
    · by_cases h401 : st = 401
      · subst h401
        simp [DeleteHostedCollector]
      · simp [DeleteHostedCollector, h200, h401, h404]

theorem deleteHTTPSource_status_taxonomy (s : Client) (cid rid : Int)
    (resp : HttpResponse) :
    ((DeleteHTTPSource s cid rid resp).result = none ↔ resp.status = 200)
    ∧ ((DeleteHTTPSource s cid rid resp).result = some .sourceNotFound ↔ resp.status = 404)
    ∧ ((DeleteHTTPSource s cid rid resp).result = some .clientAuthenticationError ↔ resp.status = 401)
    ∧ (resp.status ≠ 200 → resp.status ≠ 404 → resp.status ≠ 401 →
      (DeleteHTTPSource s cid rid resp).result = some (.errorf (sourceUnknownMsg resp.status))) := by
  obtain ⟨st, et, b⟩ := resp
  by_cases h200 : st = 200
  · subst h200
    simp [DeleteHTTPSource]
  · by_cases h404 : st = 404
    · subst h404
      simp [DeleteHTTPSource]
    · by_cases h401 : st = 401
      · subst h401
        simp [DeleteHTTPSource]
      · simp [DeleteHTTPSource, h200, h401, h404]

theorem deleteAWSCloudTrailSource_status_taxonomy (s : Client) (cid rid : Int)
    (resp : HttpResponse) :
    ((DeleteAWSCloudTrailSource s cid rid resp).result = none ↔ resp.status = 200)
    ∧ ((DeleteAWSCloudTrailSource s cid rid resp).result = some .sourceNotFound ↔ resp.status = 404)
    ∧ ((DeleteAWSCloudTrailSource s cid rid resp).result = some .clientAuthenticationError ↔ resp.status = 401)
    ∧ (resp.status ≠ 200 → resp.status ≠ 404 → resp.status ≠ 401 →
      (DeleteAWSCloudTrailSource s cid rid resp).result = some (.errorf (sourceUnknownMsg resp.status))) := by
  obtain ⟨st, et, b⟩ := resp
  by_cases h200 : st = 200
  · subst h200
    simp [DeleteAWSCloudTrailSource]
  · by_cases h404 : st = 404
    · subst h404
      simp [DeleteAWSCloudTrailSource]
    · by_cases h401 : st = 401
      · subst h401
        simp [DeleteAWSCloudTrailSource]
      · simp [DeleteAWSCloudTrailSource, h200, h401, h404]

theorem deleteAWSLogSource_status_taxonomy (s : Client) (cid rid : Int)
    (resp : HttpResponse) :
    ((DeleteAWSLogSource s cid rid resp).result = none ↔ resp.status = 200)
    ∧ ((DeleteAWSLogSource s cid rid resp).result = some .sourceNotFound ↔ resp.status = 404)
    ∧ ((DeleteAWSLogSource s cid rid resp).result = some .clientAuthenticationError ↔ resp.status = 401)
    ∧ (resp.status ≠ 200 → resp.status ≠ 404 → resp.status ≠ 401 →
      (DeleteAWSLogSource s cid rid resp).result = some (.errorf (sourceUnknownMsg resp.status))) := by
  obtain ⟨st, et, b⟩ := resp
  by_cases h200 : st = 200
  · subst h200
    simp [DeleteAWSLogSource]
  · by_cases h404 : st = 404
    · subst h404
      simp [DeleteAWSLogSource]
    · by_cases h401 : st = 401
      · subst h401
        simp [DeleteAWSLogSource]
      · simp [DeleteAWSLogSource, h200, h401, h404]

/-! ## The claims -/

/-- C3: For every resource kind, Get returns the kind-specific not-found
error (ErrCollectorNotFound for collectors, ErrSourceNotFound for sources)
if and only if the server responds 404, returns the authentication error if
and only if the server responds 401, and for any other non-200 status
returns the unknown-response `fmt.Errorf` error carrying that numeric status
code: `collectorUnknownMsg code` and `sourceUnknownMsg code` contain the
decimal rendering of the code (the collector variant through the
`%!s(int=N)` rendering of the `%s` verb applied to an int). -/
theorem get_status_error_taxonomy (s : Client) (cid rid : Int)
    (resp : HttpResponse) :
    (((GetHostedCollector s rid resp).result = .error .collectorNotFound
        ↔ resp.status = 404)
      ∧ ((GetHostedCollector s rid resp).result
          = .error .clientAuthenticationError ↔ resp.status = 401)
      ∧ (resp.status ≠ 200 → resp.status ≠ 401 → resp.status ≠ 404 →
        (GetHostedCollector s rid resp).result
          = .error (.errorf (collectorUnknownMsg resp.status))))
    ∧ (((GetHTTPSource s cid rid resp).result = .error .sourceNotFound
        ↔ resp.status = 404)
      ∧ ((GetHTTPSource s cid rid resp).result
          = .error .clientAuthenticationError ↔ resp.status = 401)
      ∧ (resp.status ≠ 200 → resp.status ≠ 401 → resp.status ≠ 404 →
        (GetHTTPSource s cid rid resp).result
          = .error (.errorf (sourceUnknownMsg resp.status))))
    ∧ (((GetAWSCloudTrailSource s cid rid resp).result = .error .sourceNotFound
        ↔ resp.status = 404)
      ∧ ((GetAWSCloudTrailSource s cid rid resp).result
          = .error .clientAuthenticationError ↔ resp.status = 401)
      ∧ (resp.status ≠ 200 → resp.status ≠ 401 → resp.status ≠ 404 →
        (GetAWSCloudTrailSource s cid rid resp).result
          = .error (.errorf (sourceUnknownMsg resp.status))))
    ∧ (((GetAWSLogSource s cid rid resp).result = .error .sourceNotFound
        ↔ resp.status = 404)
      ∧ ((GetAWSLogSource s cid rid resp).result
          = .error .clientAuthenticationError ↔ resp.status = 401)
      ∧ (resp.status ≠ 200 → resp.status ≠ 401 → resp.status ≠ 404 →
        (GetAWSLogSource s cid rid resp).result
          = .error (.errorf (sourceUnknownMsg resp.status))))
    ∧ (∀ code : Nat, ∃ pre post,
        collectorUnknownMsg code = pre ++ toString code ++ post)
    ∧ (∀ code : Nat, ∃ pre post,
        sourceUnknownMsg code = pre ++ toString code ++ post) :=
  ⟨getHostedCollector_status_taxonomy s rid resp,
   getHTTPSource_status_taxonomy s cid rid resp,
   getAWSCloudTrailSource_status_taxonomy s cid rid resp,
   getAWSLogSource_status_taxonomy s cid rid resp,
   fun _ => ⟨"Unknown Response with Sumo Logic: `%!s(int=", ")`", rfl⟩,
   fun _ => ⟨"Unknown Response with Sumo Logic: `", "`", rfl⟩⟩

/-- Witness for C3: a concrete 500 response yields the unknown-response
error, and a concrete 404 response yields the not-found sentinel. -/
theorem get_status_error_taxonomy_witness :
    (GetHTTPSource ⟨"token", "https://api.example/"⟩ 3 4 ⟨500, "", none⟩).result
      = .error (.errorf (sourceUnknownMsg 500))
    ∧ (GetHostedCollector ⟨"token", "https://api.example/"⟩ 3
        ⟨404, "", none⟩).result = .error .collectorNotFound :=
  ⟨(get_status_error_taxonomy ⟨"token", "https://api.example/"⟩ 3 4
      ⟨500, "", none⟩).2.1.2.2 (by decide) (by decide) (by decide),
   ((get_status_error_taxonomy ⟨"token", "https://api.example/"⟩ 3 4
      ⟨404, "", none⟩).1.1).mpr rfl⟩

/-- C7: For every resource kind, Delete returns a nil error exactly on an
HTTP 200 response, returns the kind-specific not-found error on 404 (a 404
on delete is reported as an error, never swallowed as success), returns the
authentication error on 401, and any other status yields the
unknown-response `fmt.Errorf` error. -/
theorem delete_status_taxonomy (s : Client) (cid rid : Int)
    (resp : HttpResponse) :
    (((DeleteHostedCollector s rid resp).result = none ↔ resp.status = 200)
      ∧ ((DeleteHostedCollector s rid resp).result = some .collectorNotFound
          ↔ resp.status = 404)
      ∧ ((DeleteHostedCollector s rid resp).result
          = some .clientAuthenticationError ↔ resp.status = 401)
      ∧ (resp.status ≠ 200 → resp.status ≠ 404 → resp.status ≠ 401 →
        (DeleteHostedCollector s rid resp).result
          = some (.errorf (collectorUnknownMsg resp.status))))
    ∧ (((DeleteHTTPSource s cid rid resp).result = none ↔ resp.status = 200)
      ∧ ((DeleteHTTPSource s cid rid resp).result = some .sourceNotFound
          ↔ resp.status = 404)
      ∧ ((DeleteHTTPSource s cid rid resp).result
          = some .clientAuthenticationError ↔ resp.status = 401)
      ∧ (resp.status ≠ 200 → resp.status ≠ 404 → resp.status ≠ 401 →
        (DeleteHTTPSource s cid rid resp).result
          = some (.errorf (sourceUnknownMsg resp.status))))
    ∧ (((DeleteAWSCloudTrailSource s cid rid resp).result = none
          ↔ resp.status = 200)
      ∧ ((DeleteAWSCloudTrailSource s cid rid resp).result
          = some .sourceNotFound ↔ resp.status = 404)
      ∧ ((DeleteAWSCloudTrailSource s cid rid resp).result
          = some .clientAuthenticationError ↔ resp.status = 401)
      ∧ (resp.status ≠ 200 → resp.status ≠ 404 → resp.status ≠ 401 →
        (DeleteAWSCloudTrailSource s cid rid resp).result
          = some (.errorf (sourceUnknownMsg resp.status))))
    ∧ (((DeleteAWSLogSource s cid rid resp).result = none ↔ resp.status = 200)
      ∧ ((DeleteAWSLogSource s cid rid resp).result = some .sourceNotFound
          ↔ resp.status = 404)
      ∧ ((DeleteAWSLogSource s cid rid resp).result
          = some .clientAuthenticationError ↔ resp.status = 401)
      ∧ (resp.status ≠ 200 → resp.status ≠ 404 → resp.status ≠ 401 →
        (DeleteAWSLogSource s cid rid resp).result
          = some (.errorf (sourceUnknownMsg resp.status)))) :=
  ⟨deleteHostedCollector_status_taxonomy s rid resp,
   deleteHTTPSource_status_taxonomy s cid rid resp,
   deleteAWSCloudTrailSource_status_taxonomy s cid rid resp,
   deleteAWSLogSource_status_taxonomy s cid rid resp⟩

/-- Witness for C7: a concrete 200 response yields a nil error, a 404 the
not-found sentinel, and a 418 the unknown-response error. -/
theorem delete_status_taxonomy_witness :
    (DeleteAWSLogSource ⟨"token", "https://api.example/"⟩ 1 2
        ⟨200, "", none⟩).result = none
    ∧ (DeleteHTTPSource ⟨"token", "https://api.example/"⟩ 1 2
        ⟨404, "", none⟩).result = some .sourceNotFound
    ∧ (DeleteHostedCollector ⟨"token", "https://api.example/"⟩ 1
        ⟨418, "", none⟩).result = some (.errorf (collectorUnknownMsg 418)) :=
  ⟨((delete_status_taxonomy ⟨"token", "https://api.example/"⟩ 1 2
      ⟨200, "", none⟩).2.2.2.1).mpr rfl,
   ((delete_status_taxonomy ⟨"token", "https://api.example/"⟩ 1 2
      ⟨404, "", none⟩).2.1.2.1).mpr rfl,
   (delete_status_taxonomy ⟨"token", "https://api.example/"⟩ 1 2
      ⟨418, "", none⟩).1.2.2.2 (by decide) (by decide) (by decide)⟩

/-! ## Decoder inversion: a successful decode takes its id from the wire -/

theorem decodeCollector_obj_id (sfs : List (String × Json)) (src : Collector)
    (n : Int) (h : decodeCollector (.obj sfs) = .ok src)
    (hid : jlookup sfs "id" = some (.num n)) : src.ID = n := by
  have hr : readInt sfs "id" = .ok n := by simp [readInt, hid]
  simp only [decodeCollector] at h
  rw [hr] at h
  split at h
  · cases h
    simp_all
  · simp_all


theorem decodeHTTPSource_obj_id (sfs : List (String × Json)) (src : HTTPSource)
    (n : Int) (h : decodeHTTPSource (.obj sfs) = .ok src)
    (hid : jlookup sfs "id" = some (.num n)) : src.ID = n := by
  have hr : readInt sfs "id" = .ok n := by simp [readInt, hid]
  simp only [decodeHTTPSource] at h
  rw [hr] at h
  split at h
  · cases h
    simp_all
  · simp_all

theorem decodeAWSCloudTrailSource_obj_id (sfs : List (String × Json)) (src : AWSCloudTrailSource)
    (n : Int) (h : decodeAWSCloudTrailSource (.obj sfs) = .ok src)
    (hid : jlookup sfs "id" = some (.num n)) : src.ID = n := by
  have hr : readInt sfs "id" = .ok n := by simp [readInt, hid]
  simp only [decodeAWSCloudTrailSource] at h
  rw [hr] at h
  split at h
  · cases h
    simp_all
  · simp_all

theorem decodeAWSLogSource_obj_id (sfs : List (String × Json)) (src : AWSLogSource)
    (n : Int) (h : decodeAWSLogSource (.obj sfs) = .ok src)
    (hid : jlookup sfs "id" = some (.num n)) : src.ID = n := by
  have hr : readInt sfs "id" = .ok n := by simp [readInt, hid]
  simp only [decodeAWSLogSource] at h
  rw [hr] at h
  split at h
  · cases h
    simp_all
  · simp_all

theorem unmarshalCollectorRequest_obj (bfs sfs : List (String × Json))
    (r : CollectorRequest) (h : unmarshalCollectorRequest (some (.obj bfs)) = .ok r)
    (hs : jlookup bfs "collector" = some (.obj sfs)) :
    decodeCollector (.obj sfs) = .ok r.Collector := by
  have hro : readObjField bfs "collector" decodeCollector Collector.zero
      = decodeCollector (.obj sfs) := by simp [readObjField, hs]
  simp only [unmarshalCollectorRequest] at h
  rw [hro] at h
  split at h
  · cases h
    simp_all
  · simp_all

theorem unmarshalHTTPSourceRequest_obj (bfs sfs : List (String × Json))
    (r : HTTPSourceRequest) (h : unmarshalHTTPSourceRequest (some (.obj bfs)) = .ok r)
    (hs : jlookup bfs "source" = some (.obj sfs)) :
    decodeHTTPSource (.obj sfs) = .ok r.Source := by
  have hro : readObjField bfs "source" decodeHTTPSource HTTPSource.zero
      = decodeHTTPSource (.obj sfs) := by simp [readObjField, hs]
  simp only [unmarshalHTTPSourceRequest] at h
  rw [hro] at h
  split at h
  · cases h
    simp_all
  · simp_all

theorem unmarshalAWSCloudTrailSourceRequest_obj (bfs sfs : List (String × Json))
    (r : AWSCloudTrailSourceRequest) (h : unmarshalAWSCloudTrailSourceRequest (some (.obj bfs)) = .ok r)
    (hs : jlookup bfs "source" = some (.obj sfs)) :
    decodeAWSCloudTrailSource (.obj sfs) = .ok r.Source := by
  have hro : readObjField bfs "source" decodeAWSCloudTrailSource AWSCloudTrailSource.zero
      = decodeAWSCloudTrailSource (.obj sfs) := by simp [readObjField, hs]
  simp only [unmarshalAWSCloudTrailSourceRequest] at h
  rw [hro] at h
  split at h
  · cases h
    simp_all
  · simp_all

theorem unmarshalAWSLogSourceRequest_obj (bfs sfs : List (String × Json))
    (r : AWSLogSourceRequest) (h : unmarshalAWSLogSourceRequest (some (.obj bfs)) = .ok r)
    (hs : jlookup bfs "source" = some (.obj sfs)) :
    decodeAWSLogSource (.obj sfs) = .ok r.Source := by
  have hro : readObjField bfs "source" decodeAWSLogSource AWSLogSource.zero
      = decodeAWSLogSource (.obj sfs) := by simp [readObjField, hs]
  simp only [unmarshalAWSLogSourceRequest] at h
  rw [hro] at h
  split at h
  · cases h
    simp_all
  · simp_all


theorem getHostedCollector_ok_envelope (s : Client) (rid : Int)
    (resp : HttpResponse) (r : CollectorRequest) (bfs sfs : List (String × Json))
    (n : Int) (h200 : resp.status = 200) (hu : unmarshalCollectorRequest resp.body = .ok r) :
    (GetHostedCollector s rid resp).result = .ok (r.Collector, resp.etag)
    ∧ (resp.body = some (.obj bfs) → jlookup bfs "collector" = some (.obj sfs) →
       jlookup sfs "id" = some (.num n) → r.Collector.ID = n) := by
  constructor
  · simp [GetHostedCollector, h200, hu]
  · intro hb hsrc hid
    rw [hb] at hu
    exact decodeCollector_obj_id sfs r.Collector n
      (unmarshalCollectorRequest_obj bfs sfs r hu hsrc) hid

theorem getHTTPSource_ok_envelope (s : Client) (cid rid : Int)
    (resp : HttpResponse) (r : HTTPSourceRequest) (bfs sfs : List (String × Json))
    (n : Int) (h200 : resp.status = 200) (hu : unmarshalHTTPSourceRequest resp.body = .ok r) :
    (GetHTTPSource s cid rid resp).result = .ok (r.Source, resp.etag)
    ∧ (resp.body = some (.obj bfs) → jlookup bfs "source" = some (.obj sfs) →
       jlookup sfs "id" = some (.num n) → r.Source.ID = n) := by
  constructor
  · simp [GetHTTPSource, h200, hu]
  · intro hb hsrc hid
    rw [hb] at hu
    exact decodeHTTPSource_obj_id sfs r.Source n
      (unmarshalHTTPSourceRequest_obj bfs sfs r hu hsrc) hid

theorem getAWSCloudTrailSource_ok_envelope (s : Client) (cid rid : Int)
    (resp : HttpResponse) (r : AWSCloudTrailSourceRequest) (bfs sfs : List (String × Json))
    (n : Int) (h200 : resp.status = 200) (hu : unmarshalAWSCloudTrailSourceRequest resp.body = .ok r) :
    (GetAWSCloudTrailSource s cid rid resp).result = .ok (r.Source, resp.etag)
    ∧ (resp.body = some (.obj bfs) → jlookup bfs "source" = some (.obj sfs) →
       jlookup sfs "id" = some (.num n) → r.Source.ID = n) := by
  constructor
  · simp [GetAWSCloudTrailSource, h200, hu]
  · intro hb hsrc hid
    rw [hb] at hu
    exact decodeAWSCloudTrailSource_obj_id sfs r.Source n
      (unmarshalAWSCloudTrailSourceRequest_obj bfs sfs r hu hsrc) hid

theorem getAWSLogSource_ok_envelope (s : Client) (cid rid : Int)
    (resp : HttpResponse) (r : AWSLogSourceRequest) (bfs sfs : List (String × Json))
    (n : Int) (h200 : resp.status = 200) (hu : unmarshalAWSLogSourceRequest resp.body = .ok r) :
    (GetAWSLogSource s cid rid resp).result = .ok (r.Source, resp.etag)
    ∧ (resp.body = some (.obj bfs) → jlookup bfs "source" = some (.obj sfs) →
       jlookup sfs "id" = some (.num n) → r.Source.ID = n) := by
  constructor
  · simp [GetAWSLogSource, h200, hu]
  · intro hb hsrc hid
    rw [hb] at hu
    exact decodeAWSLogSource_obj_id sfs r.Source n
      (unmarshalAWSLogSourceRequest_obj bfs sfs r hu hsrc) hid

/-- C4: For every resource kind, Get on an HTTP 200 response whose body is a
valid envelope returns the decoded envelope's resource together with the
ETag header value unchanged and no error; and the returned resource's id
equals the id in the wire payload (when the wire envelope carries a numeric
id, the decoded resource's ID field is that number). -/
theorem get_ok_decoded_resource_and_etag (s : Client) (cid rid : Int)
    (resp : HttpResponse) (bfs sfs : List (String × Json)) (n : Int) :
    (∀ r : CollectorRequest, resp.status = 200 →
      unmarshalCollectorRequest resp.body = .ok r →
      (GetHostedCollector s rid resp).result = .ok (r.Collector, resp.etag)
      ∧ (resp.body = some (.obj bfs) →
         jlookup bfs "collector" = some (.obj sfs) →
         jlookup sfs "id" = some (.num n) → r.Collector.ID = n))
    ∧ (∀ r : HTTPSourceRequest, resp.status = 200 →
      unmarshalHTTPSourceRequest resp.body = .ok r →
      (GetHTTPSource s cid rid resp).result = .ok (r.Source, resp.etag)
      ∧ (resp.body = some (.obj bfs) →
         jlookup bfs "source" = some (.obj sfs) →
         jlookup sfs "id" = some (.num n) → r.Source.ID = n))
    ∧ (∀ r : AWSCloudTrailSourceRequest, resp.status = 200 →
      unmarshalAWSCloudTrailSourceRequest resp.body = .ok r →
      (GetAWSCloudTrailSource s cid rid resp).result = .ok (r.Source, resp.etag)
      ∧ (resp.body = some (.obj bfs) →
         jlookup bfs "source" = some (.obj sfs) →
         jlookup sfs "id" = some (.num n) → r.Source.ID = n))
    ∧ (∀ r : AWSLogSourceRequest, resp.status = 200 →
      unmarshalAWSLogSourceRequest resp.body = .ok r →
      (GetAWSLogSource s cid rid resp).result = .ok (r.Source, resp.etag)
      ∧ (resp.body = some (.obj bfs) →
         jlookup bfs "source" = some (.obj sfs) →
         jlookup sfs "id" = some (.num n) → r.Source.ID = n)) :=
  ⟨fun r h200 hu => getHostedCollector_ok_envelope s rid resp r bfs sfs n h200 hu,
   fun r h200 hu => getHTTPSource_ok_envelope s cid rid resp r bfs sfs n h200 hu,
   fun r h200 hu => getAWSCloudTrailSource_ok_envelope s cid rid resp r bfs sfs n h200 hu,
   fun r h200 hu => getAWSLogSource_ok_envelope s cid rid resp r bfs sfs n h200 hu⟩

/-- The wire body of the spec's concrete scenario:
`{"source":{"id":1234567890,"name":"test","CollectorId":1234567890}}`. -/
def scenarioBody : Json :=
  .obj [("source", .obj [("id", .num 1234567890), ("name", .str "test"),
    ("CollectorId", .num 1234567890)])]

/-- The resource the concrete scenario decodes to. -/
def scenarioSource : HTTPSource :=
  { HTTPSource.zero with
    ID := 1234567890
    Name := "test"
    CollectorID := 1234567890 }

/-- Witness for C4: the spec's concrete scenario.  Get(1234567890,
1234567890) against a 200 response with the scenario body and ETag "etag"
returns the source with Name "test" and the etag unchanged, with no error. -/
theorem get_ok_decoded_resource_and_etag_witness :
    (GetHTTPSource ⟨"accessToken", "https://api.example/"⟩ 1234567890 1234567890
        ⟨200, "etag", some scenarioBody⟩).result
      = .ok (scenarioSource, "etag") :=
  ((get_ok_decoded_resource_and_etag ⟨"accessToken", "https://api.example/"⟩
      1234567890 1234567890 ⟨200, "etag", some scenarioBody⟩ [] [] 0).2.1
    ⟨scenarioSource⟩ rfl (by rfl)).1

/-- C8: For every resource type (Collector, HTTPSource, AWSCloudTrailSource,
AWSLogSource), encoding a resource into its JSON envelope and decoding that
envelope back yields a resource equal field-for-field to the original: an
omitempty field omitted because it holds the Go zero value decodes back to
that same zero value, and every populated field round-trips unchanged. -/
theorem envelope_roundtrip (c : CollectorRequest) (hr : HTTPSourceRequest)
    (ct : AWSCloudTrailSourceRequest) (l : AWSLogSourceRequest) :
    unmarshalCollectorRequest (some (marshalCollectorRequest c)) = .ok c
    ∧ unmarshalHTTPSourceRequest (some (marshalHTTPSourceRequest hr)) = .ok hr
    ∧ unmarshalAWSCloudTrailSourceRequest
        (some (marshalAWSCloudTrailSourceRequest ct)) = .ok ct
    ∧ unmarshalAWSLogSourceRequest (some (marshalAWSLogSourceRequest l)) = .ok l :=
  ⟨unmarshal_marshal_collectorRequest c,
   unmarshal_marshal_httpSourceRequest hr,
   unmarshal_marshal_awsCloudTrailSourceRequest ct,
   unmarshal_marshal_awsLogSourceRequest l⟩

/-- C9: no CRUD operation mutates the Client: the receiver after any of the
sixteen calls, on any response, is the client the call started with, so its
two fields AuthToken and EndpointURL are unchanged.  (The operations carry
the receiver through to `Outcome.client`; none of their paths writes a
field, mirroring the Go methods, which never assign to `s.AuthToken` or
`s.EndpointURL`.) -/
theorem operations_preserve_client (s : Client) (cid rid : Int)
    (c : Collector) (hsrc : HTTPSource) (ctsrc : AWSCloudTrailSource)
    (lsrc : AWSLogSource) (etag : String) (resp : HttpResponse) :
    (GetHostedCollector s rid resp).client = s
    ∧ (CreateHostedCollector s c resp).client = s
    ∧ (UpdateHostedCollector s c etag resp).client = s
    ∧ (DeleteHostedCollector s rid resp).client = s
    ∧ (GetHTTPSource s cid rid resp).client = s
    ∧ (CreateHTTPSource s cid hsrc resp).client = s
    ∧ (UpdateHTTPSource s cid hsrc etag resp).client = s
    ∧ (DeleteHTTPSource s cid rid resp).client = s
    ∧ (GetAWSCloudTrailSource s cid rid resp).client = s
    ∧ (CreateAWSCloudTrailSource s cid ctsrc resp).client = s
    ∧ (UpdateAWSCloudTrailSource s cid ctsrc etag resp).client = s
    ∧ (DeleteAWSCloudTrailSource s cid rid resp).client = s
    ∧ (GetAWSLogSource s cid rid resp).client = s
    ∧ (CreateAWSLogSource s cid lsrc resp).client = s
    ∧ (UpdateAWSLogSource s cid lsrc etag resp).client = s
    ∧ (DeleteAWSLogSource s cid rid resp).client = s :=
  ⟨rfl, rfl, rfl, rfl, rfl, rfl, rfl, rfl, rfl, rfl, rfl, rfl, rfl, rfl,
   rfl, rfl⟩

/-- C5: For every resource kind, Create sends a request body that, decoded
as the envelope, contains a resource whose name equals the input resource's
name; and on HTTP 201 the returned resource is the one decoded from the
response envelope, so its id is the server-assigned id of the response, not
an id supplied by the caller. -/
theorem create_sends_name_and_returns_created_id (s : Client) (cid : Int)
    (c : Collector) (hsrc : HTTPSource) (ctsrc : AWSCloudTrailSource)
    (lsrc : AWSLogSource) (resp : HttpResponse) :
    (∃ env : CollectorRequest,
      unmarshalCollectorRequest (CreateHostedCollector s c resp).request.body
        = .ok env ∧ env.Collector.Name = c.Name)
    ∧ (∀ env : CollectorRequest, resp.status = 201 →
      unmarshalCollectorRequest resp.body = .ok env →
      (CreateHostedCollector s c resp).result = .ok env.Collector)
    ∧ (∃ env : HTTPSourceRequest,
      unmarshalHTTPSourceRequest (CreateHTTPSource s cid hsrc resp).request.body
        = .ok env ∧ env.Source.Name = hsrc.Name)
    ∧ (∀ env : HTTPSourceRequest, resp.status = 201 →
      unmarshalHTTPSourceRequest resp.body = .ok env →
      (CreateHTTPSource s cid hsrc resp).result = .ok env.Source)
    ∧ (∃ env : AWSCloudTrailSourceRequest,
      unmarshalAWSCloudTrailSourceRequest
          (CreateAWSCloudTrailSource s cid ctsrc resp).request.body
        = .ok env ∧ env.Source.Name = ctsrc.Name)
    ∧ (∀ env : AWSCloudTrailSourceRequest, resp.status = 201 →
      unmarshalAWSCloudTrailSourceRequest resp.body = .ok env →
      (CreateAWSCloudTrailSource s cid ctsrc resp).result = .ok env.Source)
    ∧ (∃ env : AWSLogSourceRequest,
      unmarshalAWSLogSourceRequest (CreateAWSLogSource s cid lsrc resp).request.body
        = .ok env ∧ env.Source.Name = lsrc.Name)
    ∧ (∀ env : AWSLogSourceRequest, resp.status = 201 →
      unmarshalAWSLogSourceRequest resp.body = .ok env →
      (CreateAWSLogSource s cid lsrc resp).result = .ok env.Source) := by
  refine ⟨⟨⟨c⟩, unmarshal_marshal_collectorRequest ⟨c⟩, rfl⟩, ?_,
    ⟨⟨hsrc⟩, unmarshal_marshal_httpSourceRequest ⟨hsrc⟩, rfl⟩, ?_,
    ⟨⟨ctsrc⟩, unmarshal_marshal_awsCloudTrailSourceRequest ⟨ctsrc⟩, rfl⟩, ?_,
    ⟨⟨lsrc⟩, unmarshal_marshal_awsLogSourceRequest ⟨lsrc⟩, rfl⟩, ?_⟩
  · intro env h201 hu
    simp [CreateHostedCollector, h201, hu]
  · intro env h201 hu
    simp [CreateHTTPSource, h201, hu]
  · intro env h201 hu
    simp [CreateAWSCloudTrailSource, h201, hu]
  · intro env h201 hu
    simp [CreateAWSLogSource, h201, hu]

/-- The server-assigned resource of the C5 witness: the caller sent only the
name "test"; the server's 201 envelope carries id 1234567890. -/
def createdHTTPSource : HTTPSource :=
  { HTTPSource.zero with
    ID := 1234567890
    Name := "test" }

/-- Witness for C5: a create whose 201 response envelope carries the
server-assigned id returns exactly that resource. -/
theorem create_sends_name_and_returns_created_id_witness :
    (CreateHTTPSource ⟨"accessToken", "https://api.example/"⟩ 1234567890
        { HTTPSource.zero with Name := "test" }
        ⟨201, "", some (marshalHTTPSourceRequest ⟨createdHTTPSource⟩)⟩).result
      = .ok createdHTTPSource :=
  (create_sends_name_and_returns_created_id ⟨"accessToken", "https://api.example/"⟩
      1234567890 Collector.zero { HTTPSource.zero with Name := "test" }
      AWSCloudTrailSource.zero AWSLogSource.zero
      ⟨201, "", some (marshalHTTPSourceRequest ⟨createdHTTPSource⟩)⟩).2.2.2.1
    ⟨createdHTTPSource⟩ rfl
    (unmarshal_marshal_httpSourceRequest ⟨createdHTTPSource⟩)

/-- C6: For every resource kind, Update sets the If-Match request header to
exactly the caller-supplied etag on every call (the full header list is
Content-Type, Authorization, If-Match in the order the source adds them);
on HTTP 200 it returns the resource decoded from the response envelope
(reflecting updated fields such as a changed name); and on HTTP 400 it
returns a non-nil error. -/
theorem update_ifMatch_and_results (s : Client) (cid : Int) (c : Collector)
    (hsrc : HTTPSource) (ctsrc : AWSCloudTrailSource) (lsrc : AWSLogSource)
    (etag : String) (resp : HttpResponse) :
    ((UpdateHostedCollector s c etag resp).request.headers
      = [("Content-Type", "application/json"),
         ("Authorization", "Basic " ++ s.AuthToken), ("If-Match", etag)])
    ∧ (∀ env : CollectorRequest, resp.status = 200 →
      unmarshalCollectorRequest resp.body = .ok env →
      (UpdateHostedCollector s c etag resp).result = .ok env.Collector)
    ∧ (resp.status = 400 →
      ∃ e, (UpdateHostedCollector s c etag resp).result = .error e)
    ∧ ((UpdateHTTPSource s cid hsrc etag resp).request.headers
      = [("Content-Type", "application/json"),
         ("Authorization", "Basic " ++ s.AuthToken), ("If-Match", etag)])
    ∧ (∀ env : HTTPSourceRequest, resp.status = 200 →
      unmarshalHTTPSourceRequest resp.body = .ok env →
      (UpdateHTTPSource s cid hsrc etag resp).result = .ok env.Source)
    ∧ (resp.status = 400 →
      ∃ e, (UpdateHTTPSource s cid hsrc etag resp).result = .error e)
    ∧ ((UpdateAWSCloudTrailSource s cid ctsrc etag resp).request.headers
      = [("Content-Type", "application/json"),
         ("Authorization", "Basic " ++ s.AuthToken), ("If-Match", etag)])
    ∧ (∀ env : AWSCloudTrailSourceRequest, resp.status = 200 →
      unmarshalAWSCloudTrailSourceRequest resp.body = .ok env →
      (UpdateAWSCloudTrailSource s cid ctsrc etag resp).result = .ok env.Source)
    ∧ (resp.status = 400 →
      ∃ e, (UpdateAWSCloudTrailSource s cid ctsrc etag resp).result = .error e)
    ∧ ((UpdateAWSLogSource s cid lsrc etag resp).request.headers
      = [("Content-Type", "application/json"),
         ("Authorization", "Basic " ++ s.AuthToken), ("If-Match", etag)])
    ∧ (∀ env : AWSLogSourceRequest, resp.status = 200 →
      unmarshalAWSLogSourceRequest resp.body = .ok env →
      (UpdateAWSLogSource s cid lsrc etag resp).result = .ok env.Source)
    ∧ (resp.status = 400 →
      ∃ e, (UpdateAWSLogSource s cid lsrc etag resp).result = .error e) := by
  refine ⟨rfl, ?_, ?_, rfl, ?_, ?_, rfl, ?_, ?_, rfl, ?_, ?_⟩
  · intro env h200 hu
    simp [UpdateHostedCollector, h200, hu]
  · intro h400
    exact ⟨.errorf (collectorBadRequestMsg c.Name),
      by simp [UpdateHostedCollector, h400]⟩
  · intro env h200 hu
    simp [UpdateHTTPSource, h200, hu]
  · intro h400
    refine ⟨.errorf ("Bad Request. Please check if a source with this name `"
      ++ hsrc.Name ++ "` already exists"), ?_⟩
    simp [UpdateHTTPSource, h400]
  · intro env h200 hu
    simp [UpdateAWSCloudTrailSource, h200, hu]
  · intro h400
    simp only [UpdateAWSCloudTrailSource, h400]
    norm_num
    split <;> exact ⟨_, rfl⟩
  · intro env h200 hu
    simp [UpdateAWSLogSource, h200, hu]
  · intro h400
    simp only [UpdateAWSLogSource, h400]
    norm_num
    split <;> exact ⟨_, rfl⟩

/-- The updated resource of the C6 witness (the name changed to "Updated"). -/
def updatedHTTPSource : HTTPSource :=
  { HTTPSource.zero with
    ID := 1234567890
    Name := "Updated"
    CollectorID := 1234567890 }

/-- Witness for C6: a concrete update carries If-Match "etag", a 200
response returns the updated resource, and a 400 response is a non-nil
error. -/
theorem update_ifMatch_and_results_witness :
    (UpdateHTTPSource ⟨"accessToken", "https://api.example/"⟩ 1234567890
        updatedHTTPSource "etag"
        ⟨200, "", some (marshalHTTPSourceRequest ⟨updatedHTTPSource⟩)⟩).request.headers
      = [("Content-Type", "application/json"),
         ("Authorization", "Basic accessToken"), ("If-Match", "etag")]
    ∧ (UpdateHTTPSource ⟨"accessToken", "https://api.example/"⟩ 1234567890
        updatedHTTPSource "etag"
        ⟨200, "", some (marshalHTTPSourceRequest ⟨updatedHTTPSource⟩)⟩).result
      = .ok updatedHTTPSource
    ∧ (∃ e, (UpdateHTTPSource ⟨"accessToken", "https://api.example/"⟩ 1234567890
        updatedHTTPSource "etag" ⟨400, "", none⟩).result = .error e) :=
  ⟨(update_ifMatch_and_results ⟨"accessToken", "https://api.example/"⟩ 1234567890
      Collector.zero updatedHTTPSource AWSCloudTrailSource.zero AWSLogSource.zero
      "etag" ⟨200, "", some (marshalHTTPSourceRequest ⟨updatedHTTPSource⟩)⟩).2.2.2.1,
   (update_ifMatch_and_results ⟨"accessToken", "https://api.example/"⟩ 1234567890
      Collector.zero updatedHTTPSource AWSCloudTrailSource.zero AWSLogSource.zero
      "etag" ⟨200, "", some (marshalHTTPSourceRequest ⟨updatedHTTPSource⟩)⟩).2.2.2.2.1
     ⟨updatedHTTPSource⟩ rfl (unmarshal_marshal_httpSourceRequest ⟨updatedHTTPSource⟩),
   (update_ifMatch_and_results ⟨"accessToken", "https://api.example/"⟩ 1234567890
      Collector.zero updatedHTTPSource AWSCloudTrailSource.zero AWSLogSource.zero
      "etag" ⟨400, "", none⟩).2.2.2.2.2.1 rfl⟩

/-- Counterexample for C1 as stated: a 400 response whose decoded message
is "The S3 bucket 'bucketName=b' is not readable." — which matches the
claimed S3-bucket pattern — makes CreateAWSCloudTrailSource return the
generic bad-request error, not ErrAwsAuthenticationError: the CloudTrail
create path tests only the two exact messages and never the S3-bucket
regexp (that test exists only in CreateAWSLogSource). -/
theorem cloudtrail_create_s3_pattern_counterexample :
    matchS3BucketPattern "The S3 bucket 'bucketName=b' is not readable." = true
    ∧ (CreateAWSCloudTrailSource ⟨"t", "u"⟩ 1 AWSCloudTrailSource.zero
        ⟨400, "", some (.obj [("message",
          .str "The S3 bucket 'bucketName=b' is not readable.")])⟩).result
      = .error (.errorf
          "Bad Request. The S3 bucket 'bucketName=b' is not readable.")
    ∧ GoError.errorf "Bad Request. The S3 bucket 'bucketName=b' is not readable."
      ≠ GoError.awsAuthenticationError :=
  ⟨rfl, rfl, by decide⟩

/-- C1 (amended): for a 400 response whose error body decodes successfully,
CreateAWSLogSource returns ErrAwsAuthenticationError when the message is
exactly "Cannot authenticate with AWS.", exactly
"Invalid IAM role: 'errorCode=AccessDenied'.", or matches the regexp
"The S3 bucket 'bucketName=.*' is not readable."; CreateAWSCloudTrailSource
recognises only the two exact messages. -/
theorem aws_create_auth_error_patterns (s : Client) (cid : Int)
    (ctsrc : AWSCloudTrailSource) (lsrc : AWSLogSource) (resp : HttpResponse)
    (e : Error) (h400 : resp.status = 400)
    (hdec : unmarshalErrorGo resp.body = (e, none)) :
    ((e.Message = "Cannot authenticate with AWS."
        ∨ e.Message = "Invalid IAM role: 'errorCode=AccessDenied'."
        ∨ matchS3BucketPattern e.Message = true) →
      (CreateAWSLogSource s cid lsrc resp).result
        = .error .awsAuthenticationError)
    ∧ ((e.Message = "Cannot authenticate with AWS."
        ∨ e.Message = "Invalid IAM role: 'errorCode=AccessDenied'.") →
      (CreateAWSCloudTrailSource s cid ctsrc resp).result
        = .error .awsAuthenticationError) := by
  constructor
  · intro hm
    simp only [CreateAWSLogSource, h400]
    norm_num
    rw [hdec]
    rcases hm with hm | hm | hm
    · simp [hm]
    · simp [hm]
    · by_cases hab : e.Message = "Cannot authenticate with AWS."
          ∨ e.Message = "Invalid IAM role: 'errorCode=AccessDenied'." <;>
        simp [hab, hm]
  · intro hm
    simp only [CreateAWSCloudTrailSource, h400]
    norm_num
    rw [hdec]
    rcases hm with hm | hm <;> simp [hm]

/-- Witness for C1 (amended): the S3-bucket message triggers the sentinel on
the AWSLogSource create path, and the exact authentication message triggers
it on the AWSCloudTrailSource create path. -/
theorem aws_create_auth_error_patterns_witness :
    (CreateAWSLogSource ⟨"t", "u"⟩ 1 AWSLogSource.zero
        ⟨400, "", some (.obj [("message",
          .str "The S3 bucket 'bucketName=b' is not readable.")])⟩).result
      = .error .awsAuthenticationError
    ∧ (CreateAWSCloudTrailSource ⟨"t", "u"⟩ 1 AWSCloudTrailSource.zero
        ⟨400, "", some (.obj [("message",
          .str "Cannot authenticate with AWS.")])⟩).result
      = .error .awsAuthenticationError :=
  ⟨(aws_create_auth_error_patterns ⟨"t", "u"⟩ 1 AWSCloudTrailSource.zero
      AWSLogSource.zero
      ⟨400, "", some (.obj [("message",
        .str "The S3 bucket 'bucketName=b' is not readable.")])⟩
      ⟨0, "", "", "The S3 bucket 'bucketName=b' is not readable."⟩ rfl rfl).1
      (Or.inr (Or.inr rfl)),
   (aws_create_auth_error_patterns ⟨"t", "u"⟩ 1 AWSCloudTrailSource.zero
      AWSLogSource.zero
      ⟨400, "", some (.obj [("message", .str "Cannot authenticate with AWS.")])⟩
      ⟨0, "", "", "Cannot authenticate with AWS."⟩ rfl rfl).2 (Or.inl rfl)⟩

/-- C2 (code-bug evidence): on a 400 response with an absent or undecodable
body, CreateHTTPSource returns the error "Bad Request. " — non-nil, but its
message does not reference the candidate duplicate name "test", because the
400 branch declares `var e = new(Error)` and never unmarshals the body into
it, so `e.Message` is the zero value "".  The three sibling create paths do
reference the name on the same input (the collector one through the mangled
rendering of its stray `%` verb). -/
theorem createHTTPSource_badRequest_drops_name :
    (CreateHTTPSource ⟨"t", "u"⟩ 1 { HTTPSource.zero with Name := "test" }
        ⟨400, "", none⟩).result = .error (.errorf "Bad Request. ")
    ∧ (CreateAWSLogSource ⟨"t", "u"⟩ 1 { AWSLogSource.zero with Name := "test" }
        ⟨400, "", none⟩).result = .error (.errorf
        "Bad Request. Please check if a source with this name `test` already exists")
    ∧ (CreateAWSCloudTrailSource ⟨"t", "u"⟩ 1
        { AWSCloudTrailSource.zero with Name := "test" } ⟨400, "", none⟩).result
      = .error (.errorf
        "Bad Request. Please check if a source with this name `test` already exists")
    ∧ (CreateHostedCollector ⟨"t", "u"⟩ { Collector.zero with Name := "test" }
        ⟨400, "", none⟩).result = .error (.errorf
        "Bad Request. Please check if a collector with this name `%!`(string=test) already exists") :=
  ⟨rfl, rfl, rfl, rfl⟩

/-- The collector create/update 400 message starts with "Bad Request. ". -/
theorem collector_hint_decomp (name : String) :
    ∃ r, collectorBadRequestMsg name = "Bad Request. " ++ r :=
  ⟨"Please check if a collector with this name `%!`(string=" ++ name
    ++ ") already exists",
   by simp [collectorBadRequestMsg, ← String.append_assoc]⟩

/-- The source duplicate-name 400 message starts with "Bad Request. ". -/
theorem source_hint_decomp (name : String) :
    ∃ r, "Bad Request. Please check if a source with this name `" ++ name
      ++ "` already exists" = "Bad Request. " ++ r :=
  ⟨"Please check if a source with this name `" ++ name ++ "` already exists",
   by simp [← String.append_assoc]⟩

/-- C10: For every CRUD operation on every resource kind, an HTTP 400
response never produces a decode error, whether or not the response body
decodes as the structured error object; on the create and update paths —
the only ones that read the 400 error body — the 400 is absorbed and mapped
to either ErrAwsAuthenticationError or a `fmt.Errorf` error whose message
starts with "Bad Request. " (Get and Delete never read the 400 body and
map it to their unknown-response error). -/
theorem badRequest_never_decode_error (s : Client) (cid rid : Int)
    (c : Collector) (hsrc : HTTPSource) (ctsrc : AWSCloudTrailSource)
    (lsrc : AWSLogSource) (etag : String) (resp : HttpResponse) (m : String)
    (h400 : resp.status = 400) :
    ((GetHostedCollector s rid resp).result ≠ .error (.jsonError m)
      ∧ (CreateHostedCollector s c resp).result ≠ .error (.jsonError m)
      ∧ (UpdateHostedCollector s c etag resp).result ≠ .error (.jsonError m)
      ∧ (DeleteHostedCollector s rid resp).result ≠ some (.jsonError m)
      ∧ (GetHTTPSource s cid rid resp).result ≠ .error (.jsonError m)
      ∧ (CreateHTTPSource s cid hsrc resp).result ≠ .error (.jsonError m)
      ∧ (UpdateHTTPSource s cid hsrc etag resp).result ≠ .error (.jsonError m)
      ∧ (DeleteHTTPSource s cid rid resp).result ≠ some (.jsonError m)
      ∧ (GetAWSCloudTrailSource s cid rid resp).result ≠ .error (.jsonError m)
      ∧ (CreateAWSCloudTrailSource s cid ctsrc resp).result
          ≠ .error (.jsonError m)
      ∧ (UpdateAWSCloudTrailSource s cid ctsrc etag resp).result
          ≠ .error (.jsonError m)
      ∧ (DeleteAWSCloudTrailSource s cid rid resp).result ≠ some (.jsonError m)
      ∧ (GetAWSLogSource s cid rid resp).result ≠ .error (.jsonError m)
      ∧ (CreateAWSLogSource s cid lsrc resp).result ≠ .error (.jsonError m)
      ∧ (UpdateAWSLogSource s cid lsrc etag resp).result
          ≠ .error (.jsonError m)
      ∧ (DeleteAWSLogSource s cid rid resp).result ≠ some (.jsonError m))
    ∧ ((CreateHostedCollector s c resp).result = .error .awsAuthenticationError
        ∨ ∃ r, (CreateHostedCollector s c resp).result
            = .error (.errorf ("Bad Request. " ++ r)))
    ∧ ((UpdateHostedCollector s c etag resp).result
          = .error .awsAuthenticationError
        ∨ ∃ r, (UpdateHostedCollector s c etag resp).result
            = .error (.errorf ("Bad Request. " ++ r)))
    ∧ ((CreateHTTPSource s cid hsrc resp).result
          = .error .awsAuthenticationError
        ∨ ∃ r, (CreateHTTPSource s cid hsrc resp).result
            = .error (.errorf ("Bad Request. " ++ r)))
    ∧ ((UpdateHTTPSource s cid hsrc etag resp).result
          = .error .awsAuthenticationError
        ∨ ∃ r, (UpdateHTTPSource s cid hsrc etag resp).result
            = .error (.errorf ("Bad Request. " ++ r)))
    ∧ ((CreateAWSCloudTrailSource s cid ctsrc resp).result
          = .error .awsAuthenticationError
        ∨ ∃ r, (CreateAWSCloudTrailSource s cid ctsrc resp).result
            = .error (.errorf ("Bad Request. " ++ r)))
    ∧ ((UpdateAWSCloudTrailSource s cid ctsrc etag resp).result
          = .error .awsAuthenticationError
        ∨ ∃ r, (UpdateAWSCloudTrailSource s cid ctsrc etag resp).result
            = .error (.errorf ("Bad Request. " ++ r)))
    ∧ ((CreateAWSLogSource s cid lsrc resp).result
          = .error .awsAuthenticationError
        ∨ ∃ r, (CreateAWSLogSource s cid lsrc resp).result
            = .error (.errorf ("Bad Request. " ++ r)))
    ∧ ((UpdateAWSLogSource s cid lsrc etag resp).result
          = .error .awsAuthenticationError
        ∨ ∃ r, (UpdateAWSLogSource s cid lsrc etag resp).result
            = .error (.errorf ("Bad Request. " ++ r))) := by
  refine ⟨⟨?_, ?_, ?_, ?_, ?_, ?_, ?_, ?_, ?_, ?_, ?_, ?_, ?_, ?_, ?_, ?_⟩,
    ?_, ?_, ?_, ?_, ?_, ?_, ?_, ?_⟩
  · simp [GetHostedCollector, h400]
  · simp [CreateHostedCollector, h400]
  · simp [UpdateHostedCollector, h400]
  · simp [DeleteHostedCollector, h400]
  · simp [GetHTTPSource, h400]
  · simp [CreateHTTPSource, h400]
  · simp [UpdateHTTPSource, h400]
  · simp [DeleteHTTPSource, h400]
  · simp [GetAWSCloudTrailSource, h400]
  · rcases hq : unmarshalErrorGo resp.body with ⟨e, uerr⟩
    cases uerr with
    | none =>
      by_cases hm : e.Message = "Cannot authenticate with AWS."
          ∨ e.Message = "Invalid IAM role: 'errorCode=AccessDenied'." <;>
        simp [CreateAWSCloudTrailSource, h400, hq, hm]
    | some msg => simp [CreateAWSCloudTrailSource, h400, hq]
  · simp only [UpdateAWSCloudTrailSource, h400]
    norm_num
    split <;> simp
  · simp [DeleteAWSCloudTrailSource, h400]
  · simp [GetAWSLogSource, h400]
  · rcases hq : unmarshalErrorGo resp.body with ⟨e, uerr⟩
    cases uerr with
    | none =>
      by_cases hm1 : e.Message = "Cannot authenticate with AWS."
          ∨ e.Message = "Invalid IAM role: 'errorCode=AccessDenied'."
      · simp [CreateAWSLogSource, h400, hq, hm1]
      · by_cases hm2 : matchS3BucketPattern e.Message = true <;>
          simp [CreateAWSLogSource, h400, hq, hm1, hm2]
    | some msg => simp [CreateAWSLogSource, h400, hq]
  · simp only [UpdateAWSLogSource, h400]
    norm_num
    split <;> simp
  · simp [DeleteAWSLogSource, h400]
  · have hres : (CreateHostedCollector s c resp).result
        = .error (.errorf (collectorBadRequestMsg c.Name)) := by
      simp [CreateHostedCollector, h400]
    rw [hres]
    obtain ⟨r, hr⟩ := collector_hint_decomp c.Name
    exact Or.inr ⟨r, by rw [hr]⟩
  · have hres : (UpdateHostedCollector s c etag resp).result
        = .error (.errorf (collectorBadRequestMsg c.Name)) := by
      simp [UpdateHostedCollector, h400]
    rw [hres]
    obtain ⟨r, hr⟩ := collector_hint_decomp c.Name
    exact Or.inr ⟨r, by rw [hr]⟩
  · have hres : (CreateHTTPSource s cid hsrc resp).result
        = .error (.errorf ("Bad Request. " ++ Error.zero.Message)) := by
      simp [CreateHTTPSource, h400]
    rw [hres]
    exact Or.inr ⟨Error.zero.Message, rfl⟩
  · have hres : (UpdateHTTPSource s cid hsrc etag resp).result
        = .error (.errorf ("Bad Request. Please check if a source with this name `"
          ++ hsrc.Name ++ "` already exists")) := by
      simp [UpdateHTTPSource, h400]
    rw [hres]
    obtain ⟨r, hr⟩ := source_hint_decomp hsrc.Name
    exact Or.inr ⟨r, by rw [hr]⟩
  · rcases hq : unmarshalErrorGo resp.body with ⟨e, uerr⟩
    cases uerr with
    | none =>
      by_cases hm : e.Message = "Cannot authenticate with AWS."
          ∨ e.Message = "Invalid IAM role: 'errorCode=AccessDenied'."
      · have hres : (CreateAWSCloudTrailSource s cid ctsrc resp).result
            = .error .awsAuthenticationError := by
          simp [CreateAWSCloudTrailSource, h400, hq, hm]
        rw [hres]
        exact Or.inl rfl
      · have hres : (CreateAWSCloudTrailSource s cid ctsrc resp).result
            = .error (.errorf ("Bad Request. " ++ e.Message)) := by
          simp [CreateAWSCloudTrailSource, h400, hq, hm]
        rw [hres]
        exact Or.inr ⟨e.Message, rfl⟩
    | some msg =>
      have hres : (CreateAWSCloudTrailSource s cid ctsrc resp).result
          = .error (.errorf ("Bad Request. Please check if a source with this name `"
            ++ ctsrc.Name ++ "` already exists")) := by
        simp [CreateAWSCloudTrailSource, h400, hq]
      rw [hres]
      obtain ⟨r, hr⟩ := source_hint_decomp ctsrc.Name
      exact Or.inr ⟨r, by rw [hr]⟩
  · by_cases hm : (unmarshalErrorGo resp.body).1.Message
        = "Cannot authenticate with AWS."
      ∨ (unmarshalErrorGo resp.body).1.Message
        = "Invalid IAM role: 'errorCode=AccessDenied'."
    · have hres : (UpdateAWSCloudTrailSource s cid ctsrc etag resp).result
          = .error .awsAuthenticationError := by
        simp [UpdateAWSCloudTrailSource, h400, hm]
      rw [hres]
      exact Or.inl rfl
    · have hres : (UpdateAWSCloudTrailSource s cid ctsrc etag resp).result
          = .error (.errorf ("Bad Request. Please check if a source with this name `"
            ++ ctsrc.Name ++ "` already exists")) := by
        simp [UpdateAWSCloudTrailSource, h400, hm]
      rw [hres]
      obtain ⟨r, hr⟩ := source_hint_decomp ctsrc.Name
      exact Or.inr ⟨r, by rw [hr]⟩
  · rcases hq : unmarshalErrorGo resp.body with ⟨e, uerr⟩
    cases uerr with
    | none =>
      by_cases hm1 : e.Message = "Cannot authenticate with AWS."
          ∨ e.Message = "Invalid IAM role: 'errorCode=AccessDenied'."
      · have hres : (CreateAWSLogSource s cid lsrc resp).result
            = .error .awsAuthenticationError := by
          simp [CreateAWSLogSource, h400, hq, hm1]
        rw [hres]
        exact Or.inl rfl
      · by_cases hm2 : matchS3BucketPattern e.Message = true
        · have hres : (CreateAWSLogSource s cid lsrc resp).result
              = .error .awsAuthenticationError := by
            simp [CreateAWSLogSource, h400, hq, hm1, hm2]
          rw [hres]
          exact Or.inl rfl
        · have hres : (CreateAWSLogSource s cid lsrc resp).result
              = .error (.errorf ("Bad Request. " ++ e.Message)) := by
            simp [CreateAWSLogSource, h400, hq, hm1, hm2]
          rw [hres]
          exact Or.inr ⟨e.Message, rfl⟩
    | some msg =>
      have hres : (CreateAWSLogSource s cid lsrc resp).result
          = .error (.errorf ("Bad Request. Please check if a source with this name `"
            ++ lsrc.Name ++ "` already exists")) := by
        simp [CreateAWSLogSource, h400, hq]
      rw [hres]
      obtain ⟨r, hr⟩ := source_hint_decomp lsrc.Name
      exact Or.inr ⟨r, by rw [hr]⟩
  · by_cases hm : (unmarshalErrorGo resp.body).1.Message
        = "Cannot authenticate with AWS."
      ∨ (unmarshalErrorGo resp.body).1.Message
        = "Invalid IAM role: 'errorCode=AccessDenied'."
    · have hres : (UpdateAWSLogSource s cid lsrc etag resp).result
          = .error .awsAuthenticationError := by
        simp [UpdateAWSLogSource, h400, hm]
      rw [hres]
      exact Or.inl rfl
    · have hres : (UpdateAWSLogSource s cid lsrc etag resp).result
          = .error (.errorf ("Bad Request. Please check if a source with this name `"
            ++ lsrc.Name ++ "` already exists")) := by
        simp [UpdateAWSLogSource, h400, hm]
      rw [hres]
      obtain ⟨r, hr⟩ := source_hint_decomp lsrc.Name
      exact Or.inr ⟨r, by rw [hr]⟩

/-- Witness for C10: concrete 400 responses, with and without a decodable
error body, never yield a decode error. -/
theorem badRequest_never_decode_error_witness :
    (CreateHTTPSource ⟨"t", "u"⟩ 1 HTTPSource.zero ⟨400, "", none⟩).result
      ≠ .error (.jsonError "unexpected end of JSON input")
    ∧ (GetHTTPSource ⟨"t", "u"⟩ 1 2 ⟨400, "", none⟩).result
      ≠ .error (.jsonError "unexpected end of JSON input") :=
  ⟨(badRequest_never_decode_error ⟨"t", "u"⟩ 1 2 Collector.zero HTTPSource.zero
      AWSCloudTrailSource.zero AWSLogSource.zero "etag" ⟨400, "", none⟩
      "unexpected end of JSON input" rfl).1.2.2.2.2.2.1,
   (badRequest_never_decode_error ⟨"t", "u"⟩ 1 2 Collector.zero HTTPSource.zero
      AWSCloudTrailSource.zero AWSLogSource.zero "etag" ⟨400, "", none⟩
      "unexpected end of JSON input" rfl).1.2.2.2.2.1⟩

end Sumologic
